import Mathlib

/-!
Shallow embedding of `src/main.py` (teslamate-address-fixer) and proofs of the
spec claims about it.

Modelling conventions:
* Python `float` values are modelled as exact rationals (`ℚ`); the trigonometry
  of the haversine distance is modelled over `ℝ`.
* Python `None` vs. a missing dict key are distinguished explicitly where the
  source distinguishes them (`PyVal.pynone` vs. absence from the assoc list).
* Exceptions are modelled with explicit error results; log output is modelled
  as a list of structured `LogEntry` values.
* `psycopg.Connection` has no attribute `conn`, so the source lines
  `self.db_conn.conn.commit()` (main.py:236, main.py:249) and
  `self.db_conn.conn.rollback()` (main.py:223) raise `AttributeError` when
  executed; the embedding models these statements accordingly.
-/

/-- A Python runtime value as it can occur in the dictionaries handled by the
program: `None`, a string, an int, or a float (modelled as an exact rational).
The database columns read by this program are text (nullable), bigint, or
double precision, so these four cases cover every value the code can see. -/
inductive PyVal where
  | pynone
  | pystr (s : String)
  | pyint (n : Int)
  | pyfloat (q : ℚ)
deriving DecidableEq

/-- One structured log line.  Payloads keep the identifying data interpolated
into the corresponding message of the source; purely textual parts of the
messages are not modelled. -/
inductive LogEntry where
  /-- main.py:127 `logger.error(f"Error querying OpenStreetMap: ...")` -/
  | errorQueryOSM
  /-- main.py:150 `logger.error(f"Error creating TeslaMateAddress from address: ...")`,
  where the `KeyError` names the missing dict key. -/
  | errorMissingKey (k : String)
  /-- main.py:310 `logger.info(f"Use existing address ...")` (verbose only) -/
  | infoUseExistingAddress (address_id : Int)
  /-- main.py:314 `logger.info(f"Insert new address ...")` (verbose only) -/
  | infoInsertNewAddress
  /-- main.py:229 `logger.info(f"Update drive #... address ...")` (verbose only) -/
  | infoUpdateDriveAddress (drive_id : Int) (endpoint : String)
  /-- main.py:242 `logger.info(f"Update charge #... with address ...")` (verbose only) -/
  | infoUpdateChargeAddress (charge_id : Int)
  /-- main.py:206 `logger.info(f"Fix start address for drive #...")` -/
  | infoFixStart (drive_id : Int) (lat lon : ℚ) (display_name : Option String)
  /-- main.py:212 `logger.info(f"Fix end address for drive #...")` -/
  | infoFixEnd (drive_id : Int) (lat lon : ℚ) (display_name : Option String)
  /-- main.py:220 `logger.info(f"Fix charge #...")` -/
  | infoFixCharge (charge_id : Int) (lat lon : ℚ) (display_name : Option String)
  /-- main.py:222 `logger.error(f"Error updating address ...")` -/
  | errorUpdatingAddress
deriving DecidableEq

abbrev Log := List LogEntry

/-- A Python exception escaping the statement that is being modelled. -/
inductive PyError where
  /-- a failed `assert` statement -/
  | assertionError
  /-- attribute access on an object lacking that attribute (e.g. `None.latitude`,
  or `psycopg.Connection` has no attribute `conn`) -/
  | attributeError
  /-- an error raised by the database driver (e.g. the f-string interpolated a
  Python `None` as a bareword into the SQL text) -/
  | dbError
deriving DecidableEq

/-- The `TeslaMateAddress` dataclass (main.py:54-74).  `latitude`/`longitude`
are mandatory (`__post_init__` asserts they are not `None`, main.py:76-77),
which the embedding expresses by giving them the non-optional type `ℚ`; every
other field is `Optional` with default `None`.  The `inserted_at`/`updated_at`
timestamp fields are never assigned by the code (the INSERT uses SQL `NOW()`),
so they are modelled as `Option Unit`. -/
structure TeslaMateAddress where
  latitude : ℚ
  longitude : ℚ
  display_name : Option String := none
  name : Option String := none
  house_number : Option String := none
  road : Option String := none
  neighbourhood : Option String := none
  city : Option String := none
  county : Option String := none
  postcode : Option String := none
  state : Option String := none
  state_district : Option String := none
  country : Option String := none
  raw : Option String := none
  inserted_at : Option Unit := none
  updated_at : Option Unit := none
  osm_id : Option Int := none
  osm_type : Option String := none
deriving DecidableEq

/-- Python truthiness of an `Optional[str]`: `None` and `''` are falsy,
any non-empty string is truthy. -/
def pyTruthyStr : Option String → Bool
  | none => false
  | some s => !s.isEmpty

/-- Rendering an `Optional[str]` through a Python f-string:
`None` prints as the four characters `None`. -/
def pyStrOfOptStr : Option String → String
  | some s => s
  | none => "None"

/-- Embedding of `TeslaMateAddress._get_name` (main.py:84-90):

```python
if road and house_number:
    return f"{road} {house_number}"
elif road:
    return road
return ""
```

Both parameters are the result of `dict.get` without default, hence
`Optional[str]`; the `if` conditions are Python truthiness. -/
def TeslaMateAddress._get_name (road house_number : Option String) : String :=
  if pyTruthyStr road && pyTruthyStr house_number then
    pyStrOfOptStr road ++ " " ++ pyStrOfOptStr house_number
  else if pyTruthyStr road then
    pyStrOfOptStr road
  else
    ""

/-- The `address` sub-object of a nominatim reverse-geocoding response
(a JSON object whose keys may be absent; values are strings). -/
structure OsmAddressJson where
  road : Option String := none
  house_number : Option String := none
  neighbourhood : Option String := none
  city : Option String := none
  county : Option String := none
  postcode : Option String := none
  state : Option String := none
  state_district : Option String := none
  country : Option String := none
deriving DecidableEq

/-- The top level of a nominatim reverse-geocoding JSON response, restricted to
the keys the code reads (plus `lat`/`lon`, which the response carries but the
code deliberately ignores, main.py:108-110). -/
structure OsmResponseJson where
  lat : Option String := none
  lon : Option String := none
  display_name : Option String := none
  osm_id : Option Int := none
  osm_type : Option String := none
  address : Option OsmAddressJson := none
deriving DecidableEq

/-- The transport-level outcome of the HTTP reverse-geocoding request
(main.py:101-102): either a parsed 2xx JSON body, or a
`requests.RequestException` (timeout, connection error, or the non-2xx raised
by `response.raise_for_status()`). -/
inductive HttpResult where
  | success (data : OsmResponseJson)
  | failure
deriving DecidableEq

/-- Embedding of `json.dumps(address, ensure_ascii=False)` (main.py:122): the `address`
sub-object serialized back to a JSON text.  Only keys that are present appear.
(Escaping of special characters inside values is elided; `raw` is a provenance
blob that no claim inspects beyond being a non-null string.) -/
def serializeAddressJson (a : OsmAddressJson) : String :=
  let fld : String → Option String → List String := fun k v =>
    match v with
    | some s => ["\x22" ++ k ++ "\x22: \x22" ++ s ++ "\x22"]
    | none => []
  "\x7b" ++ String.intercalate ", "
    (fld "road" a.road ++ fld "house_number" a.house_number ++
     fld "neighbourhood" a.neighbourhood ++ fld "city" a.city ++
     fld "county" a.county ++ fld "postcode" a.postcode ++
     fld "state" a.state ++ fld "state_district" a.state_district ++
     fld "country" a.country) ++ "\x7d"

/-- The success branch of `TeslaMateAddress.from_coord` (main.py:104-125):
field-by-field construction of the dataclass from the parsed response.
`address = data.get('address', {})`; each sub-field uses `.get(key, '')`;
`osm_id` uses `int(data.get('osm_id', 0))` and `osm_type` uses
`data.get('osm_type', '')`.  The latitude/longitude stored are the inputs;
the provider-returned `lat`/`lon` are deliberately not used. -/
def TeslaMateAddress.from_coord_success (latitude longitude : ℚ)
    (data : OsmResponseJson) : TeslaMateAddress :=
  let address := data.address.getD {}
  { latitude := latitude
    longitude := longitude
    display_name := some (data.display_name.getD "")
    name := some (TeslaMateAddress._get_name address.road address.house_number)
    house_number := some (address.house_number.getD "")
    road := some (address.road.getD "")
    neighbourhood := some (address.neighbourhood.getD "")
    city := some (address.city.getD "")
    county := some (address.county.getD "")
    postcode := some (address.postcode.getD "")
    state := some (address.state.getD "")
    state_district := some (address.state_district.getD "")
    country := some (address.country.getD "")
    raw := some (serializeAddressJson address)
    osm_id := some (data.osm_id.getD 0)
    osm_type := some (data.osm_type.getD "") }

/-- Embedding of `TeslaMateAddress.from_coord` (main.py:92-128).  On transport failure the
`except requests.RequestException` branch logs an error and returns `None`.
The returned pair is (function result, log lines emitted). -/
def TeslaMateAddress.from_coord (latitude longitude : ℚ) (resp : HttpResult) :
    Option TeslaMateAddress × Log :=
  match resp with
  | .success data => (some (TeslaMateAddress.from_coord_success latitude longitude data), [])
  | .failure => (none, [LogEntry.errorQueryOSM])

/-- Embedding of `dict[key]` lookup on a Python dict modelled as an association list with
distinct keys (`none` = the key is absent, i.e. `KeyError`). -/
def dictGet (d : List (String × PyVal)) (k : String) : Option PyVal :=
  (d.find? (fun p => p.1 == k)).map (·.2)

/-- The numeric content of a Python value, when it has one: floats and ints
are numbers, anything else is not. -/
def pyToNum : PyVal → Option ℚ
  | .pyint n => some (n : ℚ)
  | .pyfloat q => some q
  | _ => none

/-- Reading a Python value into an `Optional[str]` field (`None` ↦ `none`);
applied only to values that fit the annotation (see `pyFitsKey`). -/
def pyToOptStr : PyVal → Option String
  | .pystr s => some s
  | _ => none

/-- Reading a Python value into the `Optional[int]` field `osm_id`;
applied only to values that fit the annotation (see `pyFitsKey`). -/
def pyToOptInt : PyVal → Option Int
  | .pyint n => some n
  | _ => none

/-- The fourteen keys read by `from_address` after `latitude`/`longitude`,
in source order (main.py:134-147). -/
def descriptiveKeys : List String :=
  ["display_name", "name", "house_number", "road", "neighbourhood", "city",
   "county", "postcode", "state", "state_district", "country", "raw",
   "osm_id", "osm_type"]

/-- Result of a successful `from_address` construction.  A Python dataclass
performs no run-time type check: every dict value is stored verbatim in its
slot.  When all sixteen values fit the declared annotations (numbers for
`latitude`/`longitude`, strings-or-`None` for the text fields, int-or-`None`
for `osm_id`), the instance is the typed `TeslaMateAddress`; otherwise the
instance still exists in Python but holds at least one value outside its
annotation, which the ℚ/String-typed model cannot carry — recorded as
`untyped`.  (Rows read from the schema's numeric and text columns always fit;
the `untyped` case is reachable only for the function called in isolation.) -/
inductive BuiltAddress where
  | typed (a : TeslaMateAddress)
  | untyped
deriving DecidableEq

/-- Does a dict value fit the dataclass annotation of the given descriptive
key?  The thirteen text fields are `Optional[str]`; `osm_id` is
`Optional[int]`. -/
def pyFitsKey (k : String) (v : PyVal) : Bool :=
  if k == "osm_id" then
    match v with
    | .pynone => true
    | .pyint _ => true
    | _ => false
  else
    match v with
    | .pynone => true
    | .pystr _ => true
    | _ => false

/-- Embedding of `TeslaMateAddress.from_address` (main.py:130-151).

```python
try:
    inst = cls(latitude=address['latitude'], longitude=address['longitude'])
    inst.display_name = address['display_name']
    ...
    return inst
except KeyError as e:
    logger.error(...)
    return None
```

Control flow modelled:
* `address['latitude']` / `address['longitude']` are evaluated first (left to
  right); a missing key raises `KeyError`, which IS caught by the
  `except KeyError` (it is inside the `try`), so the function logs and
  returns `None`.
* if both keys are present but one value is `None`, the `__post_init__` assert
  (main.py:76-77, which checks exactly `is not None` — nothing else) fails
  with `AssertionError`, NOT caught (`except` only catches `KeyError`), so it
  escapes.  Any other value — a string included — passes the assert.
* otherwise the first missing key among `descriptiveKeys` (in access order)
  raises a caught `KeyError` ↦ log + `None`; with all sixteen keys present the
  dataclass instance is returned (`typed` when every value fits its
  annotation, `untyped` otherwise — see `BuiltAddress`).

Result: `.error e` = exception escaping the call; `.ok (r, log)` = normal
return value `r` together with the log lines emitted. -/
def TeslaMateAddress.from_address (d : List (String × PyVal)) :
    Except PyError (Option BuiltAddress × Log) :=
  match dictGet d "latitude" with
  | none => .ok (none, [LogEntry.errorMissingKey "latitude"])
  | some vlat =>
    match dictGet d "longitude" with
    | none => .ok (none, [LogEntry.errorMissingKey "longitude"])
    | some vlon =>
      if vlat = PyVal.pynone ∨ vlon = PyVal.pynone then .error .assertionError
      else
        match descriptiveKeys.find? (fun k => (dictGet d k).isNone) with
        | some k => .ok (none, [LogEntry.errorMissingKey k])
        | none =>
          match pyToNum vlat, pyToNum vlon with
          | some lat, some lon =>
            if descriptiveKeys.all
                (fun k => pyFitsKey k ((dictGet d k).getD PyVal.pynone)) then
              .ok (some (BuiltAddress.typed
                { latitude := lat
                  longitude := lon
                  display_name := pyToOptStr ((dictGet d "display_name").getD .pynone)
                  name := pyToOptStr ((dictGet d "name").getD .pynone)
                  house_number := pyToOptStr ((dictGet d "house_number").getD .pynone)
                  road := pyToOptStr ((dictGet d "road").getD .pynone)
                  neighbourhood := pyToOptStr ((dictGet d "neighbourhood").getD .pynone)
                  city := pyToOptStr ((dictGet d "city").getD .pynone)
                  county := pyToOptStr ((dictGet d "county").getD .pynone)
                  postcode := pyToOptStr ((dictGet d "postcode").getD .pynone)
                  state := pyToOptStr ((dictGet d "state").getD .pynone)
                  state_district := pyToOptStr ((dictGet d "state_district").getD .pynone)
                  country := pyToOptStr ((dictGet d "country").getD .pynone)
                  raw := pyToOptStr ((dictGet d "raw").getD .pynone)
                  osm_id := pyToOptInt ((dictGet d "osm_id").getD .pynone)
                  osm_type := pyToOptStr ((dictGet d "osm_type").getD .pynone) }), [])
            else
              .ok (some BuiltAddress.untyped, [])
          | _, _ => .ok (some BuiltAddress.untyped, [])

/-- A row of the read-only `positions` table. -/
structure PositionRow where
  id : Int
  latitude : ℚ
  longitude : ℚ
deriving DecidableEq

/-- A row of the `drives` table, restricted to the columns the program reads
and writes. -/
structure DriveRow where
  id : Int
  start_address_id : Option Int := none
  start_position_id : Option Int := none
  end_address_id : Option Int := none
  end_position_id : Option Int := none
deriving DecidableEq

/-- A row of the `charging_processes` table, restricted to the columns the
program reads and writes. -/
structure ChargeRow where
  id : Int
  address_id : Option Int := none
  position_id : Option Int := none
deriving DecidableEq

/-- A row of the `addresses` table as written by `_insert_new_address`
(main.py:258-304).  The INSERT interpolates every dataclass field into the SQL
text with an f-string, so text columns receive `pyStrOfOptStr` of the field
(a Python `None` would be stored as the text `None`); `inserted_at`/`updated_at`
are SQL `NOW()` and are not modelled. -/
structure AddressRow where
  id : Int
  display_name : String
  latitude : ℚ
  longitude : ℚ
  name : String
  house_number : String
  road : String
  neighbourhood : String
  city : String
  county : String
  postcode : String
  state : String
  state_district : String
  country : String
  raw : String
  osm_id : Int
  osm_type : String
deriving DecidableEq

/-- The database as visible to one run: the four tables plus the serial
sequence backing `addresses.id` (`next_address_id` is the id the next INSERT
will be assigned; PostgreSQL serial sequences start at 1). -/
structure DB where
  positions : List PositionRow := []
  drives : List DriveRow := []
  charges : List ChargeRow := []
  addresses : List AddressRow := []
  next_address_id : Int := 1
deriving DecidableEq

/-- Well-formedness of the address table: ids are positive (serial) and below
the next sequence value.  (Positivity is what makes the Python truthiness test
`if address_id:` in `_query_or_add_address` equivalent to `is not None`.) -/
def DB.wf (db : DB) : Prop :=
  0 < db.next_address_id ∧ ∀ r ∈ db.addresses, 0 < r.id ∧ r.id < db.next_address_id

instance (db : DB) : Decidable db.wf := by
  unfold DB.wf; infer_instance

/-- The dedup key of an in-memory address, as it reaches the SQL text of
`_query_address` (main.py:252-253): `osm_id` is interpolated bare (a `None`
there makes the SQL invalid, hence the `Option`), `osm_type` is interpolated
inside quotes, rendering `None` as the string `None`. -/
def dedupKey (a : TeslaMateAddress) : Option Int × String :=
  (a.osm_id, pyStrOfOptStr a.osm_type)

/-- The dedup key of a stored `addresses` row. -/
def AddressRow.key (r : AddressRow) : Option Int × String :=
  (some r.osm_id, r.osm_type)

/-- Embedding of `TeslaMateAddressFixer._query_address` (main.py:251-256):
`SELECT id FROM addresses WHERE osm_id = {osm_id} AND osm_type = '{osm_type}'`,
`fetchone()` returning the first matching row's id.  If `a.osm_id` is Python
`None`, the f-string puts the bareword `None` into the SQL, which the database
rejects. -/
def _query_address (db : DB) (a : TeslaMateAddress) : Except PyError (Option Int) :=
  match a.osm_id with
  | none => .error .dbError
  | some oid =>
    .ok ((db.addresses.find?
      (fun r => r.osm_id == oid && r.osm_type == pyStrOfOptStr a.osm_type)).map (·.id))

/-- Embedding of `TeslaMateAddressFixer._insert_new_address` (main.py:258-304): in dry-run
mode return `None` without touching the database; otherwise INSERT a new row
(serial id = `next_address_id`) and return the id via `RETURNING id`.
As in `_query_address`, a Python `None` in `osm_id` would corrupt the SQL. -/
def _insert_new_address (dry_run : Bool) (db : DB) (a : TeslaMateAddress) :
    Except PyError (Option Int × DB) :=
  if dry_run then .ok (none, db)
  else
    match a.osm_id with
    | none => .error .dbError
    | some oid =>
      let row : AddressRow :=
        { id := db.next_address_id
          display_name := pyStrOfOptStr a.display_name
          latitude := a.latitude
          longitude := a.longitude
          name := pyStrOfOptStr a.name
          house_number := pyStrOfOptStr a.house_number
          road := pyStrOfOptStr a.road
          neighbourhood := pyStrOfOptStr a.neighbourhood
          city := pyStrOfOptStr a.city
          county := pyStrOfOptStr a.county
          postcode := pyStrOfOptStr a.postcode
          state := pyStrOfOptStr a.state
          state_district := pyStrOfOptStr a.state_district
          country := pyStrOfOptStr a.country
          raw := pyStrOfOptStr a.raw
          osm_id := oid
          osm_type := pyStrOfOptStr a.osm_type }
      .ok (some db.next_address_id,
           { db with addresses := db.addresses ++ [row]
                     next_address_id := db.next_address_id + 1 })

/-- Python truthiness of the `Optional[int]` returned by `_query_address`:
`None` and `0` are falsy. -/
def pyTruthyOptInt : Option Int → Bool
  | none => false
  | some n => n != 0

/-- Fixer configuration: the `--dry-run` and `--verbose` flags. -/
structure FixerConfig where
  dry_run : Bool := false
  verbose : Bool := false
deriving DecidableEq

/-- The result of one modelled statement block: normal completion with a value,
the database state and the log so far, or an exception escaping the block with
the log emitted up to that point (any database changes of the surrounding
transaction are then never committed and are discarded). -/
inductive Step (α : Type) where
  | ok (val : α) (db : DB) (log : Log)
  | raise (e : PyError) (log : Log)
deriving DecidableEq

/-- Embedding of `TeslaMateAddressFixer._query_or_add_address` (main.py:306-315): look the
address up by dedup key; if the result is truthy return it (logging on
verbose), else (logging on verbose) insert. -/
def _query_or_add_address (cfg : FixerConfig) (db : DB) (log : Log)
    (a : TeslaMateAddress) : Step (Option Int) :=
  match _query_address db a with
  | .error e => .raise e log
  | .ok address_id =>
    if pyTruthyOptInt address_id then
      .ok address_id db
        (log ++ if cfg.verbose then [LogEntry.infoUseExistingAddress (address_id.getD 0)] else [])
    else
      let log := log ++ if cfg.verbose then [LogEntry.infoInsertNewAddress] else []
      match _insert_new_address cfg.dry_run db a with
      | .error e => .raise e log
      | .ok (new_id, db') => .ok new_id db' log

/-- Harness for the claim "any number of calls": resolve a list of addresses
through `_query_or_add_address` one after the other, threading the database;
`none` if any call raises.  Returns the ids handed back and the final state. -/
def rocIter (cfg : FixerConfig) : List TeslaMateAddress → DB →
    Option (List (Option Int) × DB)
  | [], db => some ([], db)
  | a :: as, db =>
    match _query_or_add_address cfg db [] a with
    | .raise _ _ => none
    | .ok id db' _ => (rocIter cfg as db').map (fun r => (id :: r.1, r.2))

/-- The external reverse-geocoding service, as a deterministic oracle from the
queried coordinate to the transport outcome of the HTTP request. -/
abbrev Geo := ℚ → ℚ → HttpResult

/-- Embedding of `TeslaMateAddressFixer._resolve_position_id` (main.py:163-177): select the
position row; when found, reverse-geocode its coordinate (the
`time.sleep(OSM_RESOLVE_INTERVAL / 1000)` pacing pause has no state effect and
is not modelled); return the address if one was obtained, `None` otherwise.
The pair is (result, log lines emitted by `from_coord`). -/
def _resolve_position_id (geo : Geo) (db : DB) (position_id : Int) :
    Option TeslaMateAddress × Log :=
  match db.positions.find? (fun p => p.id == position_id) with
  | some p => TeslaMateAddress.from_coord p.latitude p.longitude (geo p.latitude p.longitude)
  | none => (none, [])

/-- The `UPDATE drives SET {type}_address_id = {address_id} WHERE id = {drive_id}`
statement of `_fix_drive_address` (main.py:231-235), as seen inside the open
transaction. -/
def updateDriveAddr (db : DB) (drive_id : Int) (endpoint : String) (aid : Int) : DB :=
  { db with drives := db.drives.map (fun d =>
      if d.id == drive_id then
        if endpoint == "start" then { d with start_address_id := some aid }
        else if endpoint == "end" then { d with end_address_id := some aid }
        else d
      else d) }

/-- The `UPDATE charging_processes SET address_id = {address_id} WHERE id = ...`
statement of `_fix_charge_address` (main.py:244-248). -/
def updateChargeAddr (db : DB) (charge_id : Int) (aid : Int) : DB :=
  { db with charges := db.charges.map (fun c =>
      if c.id == charge_id then { c with address_id := some aid } else c) }

/-- Embedding of `TeslaMateAddressFixer._fix_drive_address` (main.py:225-236): resolve or
create the address row, log on verbose, and unless dry-run UPDATE the drive row
and commit.  The commit statement is `self.db_conn.conn.commit()`, and
`psycopg.Connection` has no attribute `conn`, so in non-dry-run mode the
statement raises `AttributeError` right after the (never-to-be-committed)
UPDATE; the transaction's pending changes are therefore discarded.
(The `none` id branch is unreachable in non-dry-run mode, where
`_query_or_add_address` always produces an id; interpolating Python `None`
into the SQL would be a database error.) -/
def _fix_drive_address (cfg : FixerConfig) (db : DB) (log : Log)
    (drive_id : Int) (endpoint : String) (a : TeslaMateAddress) : Step Unit :=
  match _query_or_add_address cfg db log a with
  | .raise e log => .raise e log
  | .ok address_id db log =>
    let log := log ++
      if cfg.verbose then [LogEntry.infoUpdateDriveAddress drive_id endpoint] else []
    if cfg.dry_run then .ok () db log
    else
      match address_id with
      | none => .raise .dbError log
      | some aid =>
        let _db := updateDriveAddr db drive_id endpoint aid
        .raise .attributeError log

/-- Embedding of `TeslaMateAddressFixer._fix_charge_address` (main.py:238-249); same shape
as `_fix_drive_address`, including the broken `self.db_conn.conn.commit()`. -/
def _fix_charge_address (cfg : FixerConfig) (db : DB) (log : Log)
    (charge_id : Int) (a : TeslaMateAddress) : Step Unit :=
  match _query_or_add_address cfg db log a with
  | .raise e log => .raise e log
  | .ok address_id db log =>
    let log := log ++
      if cfg.verbose then [LogEntry.infoUpdateChargeAddress charge_id] else []
    if cfg.dry_run then .ok () db log
    else
      match address_id with
      | none => .raise .dbError log
      | some aid =>
        let _db := updateChargeAddr db charge_id aid
        .raise .attributeError log

/-- The start-endpoint block of the drive loop in `execute` (main.py:201-206):

```python
if start_addr_id is None:
    assert start_pos_id is not None, ...
    address = self._resolve_position_id(start_pos_id)
    if address:
        self._fix_drive_address(drive_id, 'start', address)
    logger.info(f"... ({address.latitude}, {address.longitude}) => {address.display_name}")
```

Note that the final `logger.info` is OUTSIDE the `if address:` guard: when the
geocoding failed (`address is None`) it evaluates `address.latitude`, raising
`AttributeError`. -/
def fixDriveStart (cfg : FixerConfig) (geo : Geo) (db : DB) (log : Log)
    (d : DriveRow) : Step Unit :=
  if d.start_address_id.isNone then
    match d.start_position_id with
    | none => .raise .assertionError log
    | some pid =>
      let r := _resolve_position_id geo db pid
      let log := log ++ r.2
      let afterFix : Step Unit :=
        match r.1 with
        | some a => _fix_drive_address cfg db log d.id "start" a
        | none => .ok () db log
      match afterFix with
      | .raise e log => .raise e log
      | .ok _ db log =>
        match r.1 with
        | none => .raise .attributeError log
        | some a =>
          .ok () db (log ++ [LogEntry.infoFixStart d.id a.latitude a.longitude a.display_name])
  else .ok () db log

/-- The end-endpoint block of the drive loop in `execute` (main.py:207-212),
symmetric to `fixDriveStart`, including the unguarded `logger.info`. -/
def fixDriveEnd (cfg : FixerConfig) (geo : Geo) (db : DB) (log : Log)
    (d : DriveRow) : Step Unit :=
  if d.end_address_id.isNone then
    match d.end_position_id with
    | none => .raise .assertionError log
    | some pid =>
      let r := _resolve_position_id geo db pid
      let log := log ++ r.2
      let afterFix : Step Unit :=
        match r.1 with
        | some a => _fix_drive_address cfg db log d.id "end" a
        | none => .ok () db log
      match afterFix with
      | .raise e log => .raise e log
      | .ok _ db log =>
        match r.1 with
        | none => .raise .attributeError log
        | some a =>
          .ok () db (log ++ [LogEntry.infoFixEnd d.id a.latitude a.longitude a.display_name])
  else .ok () db log

/-- The drive loop of `execute` (main.py:200-212): for each candidate drive,
the start block then the end block. -/
def fixDrives (cfg : FixerConfig) (geo : Geo) :
    List DriveRow → DB → Log → Step Unit
  | [], db, log => .ok () db log
  | d :: rest, db, log =>
    match fixDriveStart cfg geo db log d with
    | .raise e log => .raise e log
    | .ok _ db log =>
      match fixDriveEnd cfg geo db log d with
      | .raise e log => .raise e log
      | .ok _ db log => fixDrives cfg geo rest db log

/-- The charge loop of `execute` (main.py:215-220):

```python
for charge_id, addr_id, pos_id in charges:
    assert pos_id is not None, ...
    address = self._resolve_position_id(pos_id)
    if address:
        self._fix_charge_address(charge_id, address)
    logger.info(f"... ({address.latitude}, ...")
```

with the same unguarded `logger.info` as the drive loop. -/
def fixCharges (cfg : FixerConfig) (geo : Geo) :
    List ChargeRow → DB → Log → Step Unit
  | [], db, log => .ok () db log
  | c :: rest, db, log =>
    match c.position_id with
    | none => .raise .assertionError log
    | some pid =>
      let r := _resolve_position_id geo db pid
      let log := log ++ r.2
      let afterFix : Step Unit :=
        match r.1 with
        | some a => _fix_charge_address cfg db log c.id a
        | none => .ok () db log
      match afterFix with
      | .raise e log => .raise e log
      | .ok _ db log =>
        match r.1 with
        | none => .raise .attributeError log
        | some a =>
          fixCharges cfg geo rest db
            (log ++ [LogEntry.infoFixCharge c.id a.latitude a.longitude a.display_name])

/-- The body of the `try` block of `execute` (main.py:182-220): snapshot the
candidate drives (start or end address missing) and charges (address missing),
then run both loops. -/
def executeBody (cfg : FixerConfig) (geo : Geo) (db : DB) : Step Unit :=
  let drives := db.drives.filter
    (fun d => d.start_address_id.isNone || d.end_address_id.isNone)
  let charges := db.charges.filter (fun c => c.address_id.isNone)
  match fixDrives cfg geo drives db [] with
  | .raise e log => .raise e log
  | .ok _ db log => fixCharges cfg geo charges db log

/-- Embedding of `TeslaMateAddressFixer.execute` (main.py:179-223).  The `except Exception`
handler logs, then executes `self.db_conn.conn.rollback()`; `psycopg.Connection`
has no attribute `conn`, so the handler itself raises `AttributeError`, which
escapes `execute`.  Consequently every exception in the body surfaces to the
caller as `AttributeError` (after the error log line), and the transaction is
left to be rolled back by the dying connection. -/
def TeslaMateAddressFixer.execute (cfg : FixerConfig) (geo : Geo) (db : DB) : Step Unit :=
  match executeBody cfg geo db with
  | .ok v db log => .ok v db log
  | .raise _ log => .raise .attributeError (log ++ [LogEntry.errorUpdatingAddress])

/-- The outcome of the whole process in single-shot `fix` mode. -/
inductive ProcOutcome where
  /-- Outcome: `main` returned normally: exit status 0 -/
  | finished (db : DB) (log : Log)
  /-- an exception escaped `main`: traceback, non-zero exit status -/
  | crashed (e : PyError) (log : Log)
deriving DecidableEq

/-- Single-shot `fix` mode (main.py:415-416): one `fixer.execute()`; an
exception escaping it crashes the process with a non-zero status. -/
def mainFixOnce (cfg : FixerConfig) (geo : Geo) (db : DB) : ProcOutcome :=
  match TeslaMateAddressFixer.execute cfg geo db with
  | .ok _ db log => .finished db log
  | .raise e log => .crashed e log

/-- The daemon-mode state after a number of loop iterations. -/
inductive DaemonOutcome where
  /-- the `while True:` loop is still running, about to start another iteration -/
  | running (db : DB)
  /-- an exception escaped `fixer.execute()`, killing the loop and the process -/
  | crashed (e : PyError)
deriving DecidableEq

/-- Daemon mode (main.py:410-414): `while True: fixer.execute(); time.sleep(...)`.
The loop body does not catch exceptions, so anything escaping `execute`
terminates the loop (and the process).  `daemonIter n` runs at most `n`
iterations.  On normal completion of an iteration the database seen by the next
iteration is the committed state; since every committing write path raises
before its commit, a normally-completed iteration committed nothing. -/
def daemonIter (cfg : FixerConfig) (geo : Geo) : Nat → DB → DaemonOutcome
  | 0, db => .running db
  | n + 1, db =>
    match TeslaMateAddressFixer.execute cfg geo db with
    | .ok _ db' _ => daemonIter cfg geo n db'
    | .raise e _ => .crashed e

/-- Embedding of `math.radians(x)`: degrees to radians, `x * π / 180`. -/
noncomputable def pyRadians (q : ℚ) : ℝ := (q : ℝ) * Real.pi / 180

/-- Embedding of `math.atan2(y, x)`: the two-argument arctangent, by quadrant.  Only the
`0 < x` and `x = 0, y = 0` branches are exercised by the haversine formula
(its second argument is a square root). -/
noncomputable def atan2 (y x : ℝ) : ℝ :=
  if 0 < x then Real.arctan (y / x)
  else if x < 0 then
    (if 0 ≤ y then Real.arctan (y / x) + Real.pi else Real.arctan (y / x) - Real.pi)
  else
    (if 0 < y then Real.pi / 2 else if y < 0 then -(Real.pi / 2) else 0)

/-- Embedding of `_calculate_distance` (main.py:323-336), the nested helper of
`TeslaMateFindNearbyAddresses.execute`: the haversine great-circle distance in
meters with mean Earth radius 6371000 m. -/
noncomputable def _calculate_distance (address1 address2 : TeslaMateAddress) : ℝ :=
  let lat1 := pyRadians address1.latitude
  let lon1 := pyRadians address1.longitude
  let lat2 := pyRadians address2.latitude
  let lon2 := pyRadians address2.longitude
  let dlat := lat2 - lat1
  let dlon := lon2 - lon1
  let a := Real.sin (dlat / 2) ^ 2 + Real.cos lat1 * Real.cos lat2 * Real.sin (dlon / 2) ^ 2
  let c := 2 * atan2 (Real.sqrt a) (Real.sqrt (1 - a))
  6371000 * c

/-- The first loop of `TeslaMateFindNearbyAddresses.execute` (main.py:383-389):

```python
for i, address in enumerate(addresses):
    nearby_addresses[i] = []
    for j, other_address in enumerate(addresses[i+1:]):
        distance_m = _calculate_distance(address, other_address)
        if distance_m <= self.radius:
            nearby_addresses[i].append((i + 1 + j, distance_m))
```

The dict (keys inserted in order `0..n-1`, exactly once each) is modelled as
the association list of its items in insertion order. -/
noncomputable def nearby_addresses (addresses : List TeslaMateAddress) (radius : Int) :
    List (Nat × List (Nat × ℝ)) :=
  addresses.enum.map (fun p =>
    (p.1, (addresses.drop (p.1 + 1)).enum.filterMap (fun q =>
      let distance_m := _calculate_distance p.2 q.2
      if distance_m ≤ (radius : ℝ) then some (p.1 + 1 + q.1, distance_m) else none)))

/-- The sequence of index pairs `(i, i + 1 + j)` on which the double loop of
`nearby_addresses` invokes `_calculate_distance`, in iteration order — the
same iteration skeleton with the loop body replaced by the compared pair. -/
def comparedPairs (addresses : List TeslaMateAddress) : List (Nat × Nat) :=
  addresses.enum.flatMap (fun p =>
    (addresses.drop (p.1 + 1)).enum.map (fun q => (p.1, p.1 + 1 + q.1)))

/-- The second loop of `TeslaMateFindNearbyAddresses.execute` (main.py:391-401):
iterate the dict items in order, `continue` on an empty neighbor list, and for
each remaining item emit the address followed by its neighbors.  Modelled at
the level of report entries (index plus neighbor list); the textual rendering
of each entry is not modelled. -/
noncomputable def nearbyReport (addresses : List TeslaMateAddress) (radius : Int) :
    List (Nat × List (Nat × ℝ)) :=
  (nearby_addresses addresses radius).filter (fun p => !p.2.isEmpty)

/-! ## Concrete fixtures used by witnesses and counterexamples -/

/-- A stored-row dict containing all sixteen keys except `latitude`. -/
def dictMissingLatitude : List (String × PyVal) :=
  [("longitude", PyVal.pyfloat 1),
   ("display_name", PyVal.pystr "Somewhere 1, Sometown"),
   ("name", PyVal.pystr "Somewhere 1"),
   ("house_number", PyVal.pystr "1"),
   ("road", PyVal.pystr "Somewhere"),
   ("neighbourhood", PyVal.pystr ""),
   ("city", PyVal.pystr "Sometown"),
   ("county", PyVal.pystr ""),
   ("postcode", PyVal.pystr "12345"),
   ("state", PyVal.pystr ""),
   ("state_district", PyVal.pystr ""),
   ("country", PyVal.pystr "Somewhere Land"),
   ("raw", PyVal.pystr "\x7b\x7d"),
   ("osm_id", PyVal.pyint 42),
   ("osm_type", PyVal.pystr "node")]

/-- A stored-row dict with all sixteen keys whose `latitude` value is a
string: the `is not None` assert passes and construction succeeds (with a
value outside the annotation, so the instance is `untyped`). -/
def dictStrLatitude : List (String × PyVal) :=
  ("latitude", PyVal.pystr "1.0") :: dictMissingLatitude

/-- A geocoder that always fails at the transport level (e.g. timeout). -/
def geoFail : Geo := fun _ _ => HttpResult.failure

/-- A geocoder that always answers with an empty (but successful) response. -/
def geoEmptyOk : Geo := fun _ _ => HttpResult.success {}

/-- Database with one drive whose start address is missing and whose start
position exists: the input on which a geocoding failure is observed. -/
def dbGeoFailDemo : DB :=
  { positions := [{ id := 10, latitude := 1, longitude := 2 }]
    drives := [{ id := 1, start_address_id := none, start_position_id := some 10,
                 end_address_id := some 5, end_position_id := some 11 }] }

/-- Database with one drive missing both its start address and its start
position: the data-integrity-violation input. -/
def dbBadDrive : DB :=
  { positions := []
    drives := [{ id := 3, start_address_id := none, start_position_id := none,
                 end_address_id := some 5, end_position_id := some 11 }] }

/-- An in-memory address carrying a complete dedup key, as produced by a
successful resolution. -/
def addrNode7 : TeslaMateAddress :=
  { latitude := 1, longitude := 2, osm_id := some 7, osm_type := some "node" }

/-- A second in-memory address with a different dedup key. -/
def addrWay8 : TeslaMateAddress :=
  { latitude := 3, longitude := 4, osm_id := some 8, osm_type := some "way" }

/-! ## Helper lemmas -/

/-- Closed form of `_calculate_distance` with its `let` bindings substituted. -/
theorem _calculate_distance_eq (a1 a2 : TeslaMateAddress) :
    _calculate_distance a1 a2 =
      6371000 * (2 * atan2
        (Real.sqrt (Real.sin ((pyRadians a2.latitude - pyRadians a1.latitude) / 2) ^ 2 +
          Real.cos (pyRadians a1.latitude) * Real.cos (pyRadians a2.latitude) *
          Real.sin ((pyRadians a2.longitude - pyRadians a1.longitude) / 2) ^ 2))
        (Real.sqrt (1 - (Real.sin ((pyRadians a2.latitude - pyRadians a1.latitude) / 2) ^ 2 +
          Real.cos (pyRadians a1.latitude) * Real.cos (pyRadians a2.latitude) *
          Real.sin ((pyRadians a2.longitude - pyRadians a1.longitude) / 2) ^ 2)))) := rfl

/-- Evaluation fact: `atan2 0 1 = 0` (the value reached by the haversine formula at distance 0). -/
theorem atan2_zero_one : atan2 0 1 = 0 := by
  unfold atan2
  rw [if_pos one_pos, zero_div, Real.arctan_zero]

/-- The haversine `a` term vanishes when the two points coincide. -/
theorem haversine_a_self (la lo : ℚ) :
    Real.sin ((pyRadians la - pyRadians la) / 2) ^ 2 +
      Real.cos (pyRadians la) * Real.cos (pyRadians la) *
      Real.sin ((pyRadians lo - pyRadians lo) / 2) ^ 2 = 0 := by
  rw [sub_self, sub_self, zero_div, Real.sin_zero]
  ring

/-- The distance of an address from itself is 0 (shared by the C7 proof and by
concrete finder computations). -/
theorem calculate_distance_self (a1 a2 : TeslaMateAddress)
    (hla : a1.latitude = a2.latitude) (hlo : a1.longitude = a2.longitude) :
    _calculate_distance a1 a2 = 0 := by
  rw [_calculate_distance_eq, ← hla, ← hlo, haversine_a_self, sub_zero,
    Real.sqrt_zero, Real.sqrt_one, atan2_zero_one]
  ring

/-! ## Claim theorems -/

/-- C3: the name derivation returns `"{road} {houseNumber}"` when both are
present (truthy), the road alone when only the road is, and `""` otherwise;
in particular `name("Main St", "5") = "Main St 5"`,
`name("Main St", "") = "Main St"`, `name("", "") = ""`, `name("", "5") = ""`. -/
theorem claim_C3_get_name :
    TeslaMateAddress._get_name (some "Main St") (some "5") = "Main St 5" ∧
    TeslaMateAddress._get_name (some "Main St") (some "") = "Main St" ∧
    TeslaMateAddress._get_name (some "") (some "") = "" ∧
    TeslaMateAddress._get_name (some "") (some "5") = "" ∧
    (∀ road house_number, pyTruthyStr road = true → pyTruthyStr house_number = true →
      TeslaMateAddress._get_name road house_number =
        pyStrOfOptStr road ++ " " ++ pyStrOfOptStr house_number) ∧
    (∀ road house_number, pyTruthyStr road = true → pyTruthyStr house_number = false →
      TeslaMateAddress._get_name road house_number = pyStrOfOptStr road) ∧
    (∀ road house_number, pyTruthyStr road = false →
      TeslaMateAddress._get_name road house_number = "") := by
  refine ⟨by decide, by decide, by decide, by decide, ?_, ?_, ?_⟩
  · intro road house_number hr hh
    simp [TeslaMateAddress._get_name, hr, hh]
  · intro road house_number hr hh
    simp [TeslaMateAddress._get_name, hr, hh]
  · intro road house_number hr
    simp [TeslaMateAddress._get_name, hr]

/-- Witness for C3: the general clauses applied at concrete truthy/falsy
inputs. -/
theorem claim_C3_get_name_witness :
    (pyTruthyStr (some "High St") = true ∧ pyTruthyStr (some "7") = true ∧
      TeslaMateAddress._get_name (some "High St") (some "7") =
        pyStrOfOptStr (some "High St") ++ " " ++ pyStrOfOptStr (some "7")) ∧
    (pyTruthyStr none = false ∧
      TeslaMateAddress._get_name none (some "7") = "") :=
  ⟨⟨by decide, by decide,
    claim_C3_get_name.2.2.2.2.1 (some "High St") (some "7") (by decide) (by decide)⟩,
   ⟨by decide, claim_C3_get_name.2.2.2.2.2.2 none (some "7") (by decide)⟩⟩

/-- C7: the haversine distance of a coordinate from itself is 0, and the
distance is symmetric in its two arguments. -/
theorem claim_C7_distance_self_and_symm :
    ∀ p q : TeslaMateAddress,
      _calculate_distance p p = 0 ∧
      _calculate_distance p q = _calculate_distance q p := by
  intro p q
  constructor
  · exact calculate_distance_self p p rfl rfl
  · rw [_calculate_distance_eq, _calculate_distance_eq]
    have h1 : ∀ x y : ℝ, Real.sin ((x - y) / 2) ^ 2 = Real.sin ((y - x) / 2) ^ 2 := by
      intro x y
      have hneg : (x - y) / 2 = -((y - x) / 2) := by ring
      rw [hneg, Real.sin_neg, neg_sq]
    rw [h1 (pyRadians q.latitude) (pyRadians p.latitude),
      h1 (pyRadians q.longitude) (pyRadians p.longitude),
      mul_comm (Real.cos (pyRadians p.latitude)) (Real.cos (pyRadians q.latitude))]

/-- C8: on a successful geocode response, the constructed address keeps the
input coordinates (the provider-returned `lat`/`lon` are ignored), maps every
missing provider sub-field to the empty string rather than null, defaults
`osm_id` to 0 and `osm_type` to `""` when absent, and those defaults flow into
the dedup key as ordinary values. -/
theorem claim_C8_from_coord_fields :
    ∀ (lat lon : ℚ) (data : OsmResponseJson),
      (TeslaMateAddress.from_coord_success lat lon data).latitude = lat ∧
      (TeslaMateAddress.from_coord_success lat lon data).longitude = lon ∧
      (∀ latp lonp,
        TeslaMateAddress.from_coord_success lat lon { data with lat := latp, lon := lonp } =
          TeslaMateAddress.from_coord_success lat lon data) ∧
      (data.display_name = none →
        (TeslaMateAddress.from_coord_success lat lon data).display_name = some "") ∧
      (∀ ao, data.address = some ao →
        (ao.road = none → (TeslaMateAddress.from_coord_success lat lon data).road = some "") ∧
        (ao.house_number = none →
          (TeslaMateAddress.from_coord_success lat lon data).house_number = some "") ∧
        (ao.neighbourhood = none →
          (TeslaMateAddress.from_coord_success lat lon data).neighbourhood = some "") ∧
        (ao.city = none → (TeslaMateAddress.from_coord_success lat lon data).city = some "") ∧
        (ao.county = none → (TeslaMateAddress.from_coord_success lat lon data).county = some "") ∧
        (ao.postcode = none →
          (TeslaMateAddress.from_coord_success lat lon data).postcode = some "") ∧
        (ao.state = none → (TeslaMateAddress.from_coord_success lat lon data).state = some "") ∧
        (ao.state_district = none →
          (TeslaMateAddress.from_coord_success lat lon data).state_district = some "") ∧
        (ao.country = none →
          (TeslaMateAddress.from_coord_success lat lon data).country = some "")) ∧
      (data.address = none →
        (TeslaMateAddress.from_coord_success lat lon data).road = some "" ∧
        (TeslaMateAddress.from_coord_success lat lon data).house_number = some "" ∧
        (TeslaMateAddress.from_coord_success lat lon data).neighbourhood = some "" ∧
        (TeslaMateAddress.from_coord_success lat lon data).city = some "" ∧
        (TeslaMateAddress.from_coord_success lat lon data).county = some "" ∧
        (TeslaMateAddress.from_coord_success lat lon data).postcode = some "" ∧
        (TeslaMateAddress.from_coord_success lat lon data).state = some "" ∧
        (TeslaMateAddress.from_coord_success lat lon data).state_district = some "" ∧
        (TeslaMateAddress.from_coord_success lat lon data).country = some "") ∧
      (data.osm_id = none →
        (TeslaMateAddress.from_coord_success lat lon data).osm_id = some 0) ∧
      (data.osm_type = none →
        (TeslaMateAddress.from_coord_success lat lon data).osm_type = some "") ∧
      (TeslaMateAddress.from_coord_success lat lon data).osm_id =
        some (data.osm_id.getD 0) ∧
      dedupKey (TeslaMateAddress.from_coord_success lat lon data) =
        (some (data.osm_id.getD 0), data.osm_type.getD "") := by
  intro lat lon data
  refine ⟨rfl, rfl, fun latp lonp => rfl, ?_, ?_, ?_, ?_, ?_, rfl, ?_⟩
  · intro h; simp [TeslaMateAddress.from_coord_success, h]
  · intro ao h
    refine ⟨?_, ?_, ?_, ?_, ?_, ?_, ?_, ?_, ?_⟩ <;>
      (intro hf; simp [TeslaMateAddress.from_coord_success, h, hf])
  · intro h
    refine ⟨?_, ?_, ?_, ?_, ?_, ?_, ?_, ?_, ?_⟩ <;>
      simp [TeslaMateAddress.from_coord_success, h, OsmAddressJson.mk.injEq]
  · intro h; simp [TeslaMateAddress.from_coord_success, h]
  · intro h; simp [TeslaMateAddress.from_coord_success, h]
  · simp [TeslaMateAddress.from_coord_success, dedupKey, pyStrOfOptStr]

/-- Witness for C8 at a concrete response with every optional part absent. -/
theorem claim_C8_from_coord_fields_witness :
    ((OsmResponseJson.mk none none none none none none).address = none ∧
      (TeslaMateAddress.from_coord_success 1 2
        (OsmResponseJson.mk none none none none none none)).road = some "") ∧
    ((OsmResponseJson.mk none none none none none none).osm_id = none ∧
      (TeslaMateAddress.from_coord_success 1 2
        (OsmResponseJson.mk none none none none none none)).osm_id = some 0) :=
  ⟨⟨rfl, ((claim_C8_from_coord_fields 1 2
      (OsmResponseJson.mk none none none none none none)).2.2.2.2.2.1 rfl).1⟩,
   ⟨rfl, (claim_C8_from_coord_fields 1 2
      (OsmResponseJson.mk none none none none none none)).2.2.2.2.2.2.1 rfl⟩⟩

/-- C10 counterexample: for a dict containing every key except `latitude`,
`from_address` catches the `KeyError` (the construction line is inside the
`try`), logs it, and returns `None` — it does not fail with an uncaught
assertion or key error as the claim states. -/
theorem claim_C10_counterexample :
    TeslaMateAddress.from_address dictMissingLatitude =
      Except.ok (none, [LogEntry.errorMissingKey "latitude"]) ∧
    TeslaMateAddress.from_address dictMissingLatitude ≠
      Except.error PyError.assertionError ∧
    TeslaMateAddress.from_address dictMissingLatitude ≠
      Except.error PyError.attributeError ∧
    TeslaMateAddress.from_address dictMissingLatitude ≠
      Except.error PyError.dbError := by
  have h : TeslaMateAddress.from_address dictMissingLatitude =
      Except.ok (none, [LogEntry.errorMissingKey "latitude"]) := by rfl
  refine ⟨h, ?_, ?_, ?_⟩ <;> (rw [h]; exact fun hc => Except.noConfusion hc)

/-- C10 amended: a missing key — `latitude` and `longitude` included — is
caught, logged and mapped to `None`; only a `latitude`/`longitude` that is
present but `None` fails the `is not None` assert of `__post_init__` and
escapes as an uncaught `AssertionError`; any other present value passes the
assert, and with all sixteen keys present an instance is returned. -/
theorem claim_C10_from_address_amended :
    ∀ d : List (String × PyVal),
      (dictGet d "latitude" = none →
        TeslaMateAddress.from_address d =
          Except.ok (none, [LogEntry.errorMissingKey "latitude"])) ∧
      (∀ vlat, dictGet d "latitude" = some vlat → dictGet d "longitude" = none →
        TeslaMateAddress.from_address d =
          Except.ok (none, [LogEntry.errorMissingKey "longitude"])) ∧
      (∀ vlat vlon, dictGet d "latitude" = some vlat →
        dictGet d "longitude" = some vlon →
        (vlat = PyVal.pynone ∨ vlon = PyVal.pynone) →
        TeslaMateAddress.from_address d = Except.error PyError.assertionError) ∧
      (∀ vlat vlon, dictGet d "latitude" = some vlat →
        dictGet d "longitude" = some vlon →
        vlat ≠ PyVal.pynone → vlon ≠ PyVal.pynone →
        ((∃ k ∈ descriptiveKeys, dictGet d k = none) →
          ∃ k, k ∈ descriptiveKeys ∧ dictGet d k = none ∧
            TeslaMateAddress.from_address d =
              Except.ok (none, [LogEntry.errorMissingKey k])) ∧
        ((∀ k ∈ descriptiveKeys, (dictGet d k).isSome) →
          ∃ v, TeslaMateAddress.from_address d = Except.ok (some v, []))) := by
  intro d
  refine ⟨?_, ?_, ?_, ?_⟩
  · intro h
    simp [TeslaMateAddress.from_address, h]
  · intro vlat h1 h2
    simp [TeslaMateAddress.from_address, h1, h2]
  · intro vlat vlon h1 h2 hor
    rcases hor with h | h <;> subst h <;>
      simp [TeslaMateAddress.from_address, h1, h2]
  · intro vlat vlon h1 h2 hne1 hne2
    have hifn : ¬(vlat = PyVal.pynone ∨ vlon = PyVal.pynone) := by
      rintro (h | h)
      · exact hne1 h
      · exact hne2 h
    constructor
    · rintro ⟨k, hk, hnone⟩
      have hfind : (descriptiveKeys.find? (fun k => (dictGet d k).isNone)).isSome := by
        rw [List.find?_isSome]
        exact ⟨k, hk, by simp [hnone]⟩
      obtain ⟨k', hk'⟩ := Option.isSome_iff_exists.mp hfind
      refine ⟨k', List.mem_of_find?_eq_some hk', ?_, ?_⟩
      · have := List.find?_some hk'
        simpa using this
      · simp [TeslaMateAddress.from_address, h1, h2, hifn, hk']
    · intro hall
      have hfind : descriptiveKeys.find? (fun k => (dictGet d k).isNone) = none := by
        rw [List.find?_eq_none]
        intro k hk
        simpa using Option.isSome_iff_ne_none.mp (hall k hk)
      cases hq1 : pyToNum vlat with
      | none =>
        exact ⟨BuiltAddress.untyped,
          by simp [TeslaMateAddress.from_address, h1, h2, hifn, hfind, hq1]⟩
      | some qlat =>
        cases hq2 : pyToNum vlon with
        | none =>
          exact ⟨BuiltAddress.untyped,
            by simp [TeslaMateAddress.from_address, h1, h2, hifn, hfind, hq1, hq2]⟩
        | some qlon =>
          by_cases hfit : descriptiveKeys.all
              (fun k => pyFitsKey k ((dictGet d k).getD PyVal.pynone)) = true
          · refine ⟨BuiltAddress.typed
              { latitude := qlat, longitude := qlon,
                display_name := pyToOptStr ((dictGet d "display_name").getD PyVal.pynone),
                name := pyToOptStr ((dictGet d "name").getD PyVal.pynone),
                house_number := pyToOptStr ((dictGet d "house_number").getD PyVal.pynone),
                road := pyToOptStr ((dictGet d "road").getD PyVal.pynone),
                neighbourhood := pyToOptStr ((dictGet d "neighbourhood").getD PyVal.pynone),
                city := pyToOptStr ((dictGet d "city").getD PyVal.pynone),
                county := pyToOptStr ((dictGet d "county").getD PyVal.pynone),
                postcode := pyToOptStr ((dictGet d "postcode").getD PyVal.pynone),
                state := pyToOptStr ((dictGet d "state").getD PyVal.pynone),
                state_district := pyToOptStr ((dictGet d "state_district").getD PyVal.pynone),
                country := pyToOptStr ((dictGet d "country").getD PyVal.pynone),
                raw := pyToOptStr ((dictGet d "raw").getD PyVal.pynone),
                osm_id := pyToOptInt ((dictGet d "osm_id").getD PyVal.pynone),
                osm_type := pyToOptStr ((dictGet d "osm_type").getD PyVal.pynone) }, ?_⟩
            simp [TeslaMateAddress.from_address, h1, h2, hifn, hfind, hq1, hq2, hfit]
          · exact ⟨BuiltAddress.untyped,
              by simp [TeslaMateAddress.from_address, h1, h2, hifn, hfind, hq1, hq2, hfit]⟩

/-- Witness for C10 (amended): the missing-`latitude` clause at the concrete
fixture; the uncaught-assert clause at a dict whose latitude is Python `None`;
and the successful-construction clause at a dict whose latitude is a string
(the assert checks only `is not None`, so construction succeeds there). -/
theorem claim_C10_from_address_witness :
    (dictGet dictMissingLatitude "latitude" = none ∧
      TeslaMateAddress.from_address dictMissingLatitude =
        Except.ok (none, [LogEntry.errorMissingKey "latitude"])) ∧
    (dictGet [("latitude", PyVal.pynone), ("longitude", PyVal.pyfloat 2)] "latitude" =
        some PyVal.pynone ∧
      TeslaMateAddress.from_address [("latitude", PyVal.pynone), ("longitude", PyVal.pyfloat 2)] =
        Except.error PyError.assertionError) ∧
    (dictGet dictStrLatitude "latitude" = some (PyVal.pystr "1.0") ∧
      PyVal.pystr "1.0" ≠ PyVal.pynone ∧
      (∀ k ∈ descriptiveKeys, (dictGet dictStrLatitude k).isSome) ∧
      ∃ v, TeslaMateAddress.from_address dictStrLatitude = Except.ok (some v, [])) :=
  ⟨⟨by decide, (claim_C10_from_address_amended dictMissingLatitude).1 (by decide)⟩,
   ⟨by decide,
    (claim_C10_from_address_amended
        [("latitude", PyVal.pynone), ("longitude", PyVal.pyfloat 2)]).2.2.1
      PyVal.pynone (PyVal.pyfloat 2) (by decide) (by decide) (Or.inl (by decide))⟩,
   ⟨by decide, by decide, by decide,
    ((claim_C10_from_address_amended dictStrLatitude).2.2.2
        (PyVal.pystr "1.0") (PyVal.pyfloat 1) (by decide) (by decide)
        (by decide) (by decide)).2 (by decide)⟩⟩

/-- The boolean row filter interpolated into `_query_address`'s SQL matches
exactly the rows whose stored key equals the in-memory dedup key. -/
theorem queryPred_iff (a : TeslaMateAddress) (oid : Int) (h : a.osm_id = some oid)
    (r : AddressRow) :
    ((r.osm_id == oid && r.osm_type == pyStrOfOptStr a.osm_type) = true) ↔
      r.key = dedupKey a := by
  simp [AddressRow.key, dedupKey, h, Prod.ext_iff]

/-- A lookup over rows none of which carries the dedup key misses. -/
theorem find?_none_of_key_absent (l : List AddressRow) (a : TeslaMateAddress)
    (oid : Int) (hid : a.osm_id = some oid)
    (habs : ∀ r ∈ l, r.key ≠ dedupKey a) :
    l.find? (fun rr => rr.osm_id == oid && rr.osm_type == pyStrOfOptStr a.osm_type) =
      none := by
  rw [List.find?_eq_none]
  intro r hr
  rw [queryPred_iff a oid hid r]
  exact habs r hr

/-- Behavior of `_query_or_add_address` when the lookup finds a row with a positive id:
that id is returned and the database is untouched. -/
theorem roc_found (cfg : FixerConfig) (db : DB) (a : TeslaMateAddress) (oid : Int)
    (r : AddressRow) (hid : a.osm_id = some oid)
    (hfind : db.addresses.find?
      (fun rr => rr.osm_id == oid && rr.osm_type == pyStrOfOptStr a.osm_type) = some r)
    (hpos : 0 < r.id) :
    _query_or_add_address cfg db [] a =
      Step.ok (some r.id) db
        (if cfg.verbose then [LogEntry.infoUseExistingAddress r.id] else []) := by
  have hne : (r.id != 0) = true := by rw [bne_iff_ne]; omega
  unfold _query_or_add_address _query_address
  rw [hid]
  simp [hfind, pyTruthyOptInt, hne]

/-- Behavior of `_query_or_add_address` when the lookup misses (non-dry-run): a new row
carrying the next serial id and the address's dedup key is appended, and that
id is returned. -/
theorem roc_inserted (cfg : FixerConfig) (db : DB) (a : TeslaMateAddress) (oid : Int)
    (hdry : cfg.dry_run = false) (hid : a.osm_id = some oid)
    (hfind : db.addresses.find?
      (fun rr => rr.osm_id == oid && rr.osm_type == pyStrOfOptStr a.osm_type) = none) :
    ∃ row : AddressRow,
      _query_or_add_address cfg db [] a =
        Step.ok (some db.next_address_id)
          { db with addresses := db.addresses ++ [row]
                    next_address_id := db.next_address_id + 1 }
          (if cfg.verbose then [LogEntry.infoInsertNewAddress] else []) ∧
      row.id = db.next_address_id ∧ row.key = dedupKey a := by
  refine ⟨{ id := db.next_address_id, display_name := pyStrOfOptStr a.display_name,
            latitude := a.latitude, longitude := a.longitude,
            name := pyStrOfOptStr a.name, house_number := pyStrOfOptStr a.house_number,
            road := pyStrOfOptStr a.road, neighbourhood := pyStrOfOptStr a.neighbourhood,
            city := pyStrOfOptStr a.city, county := pyStrOfOptStr a.county,
            postcode := pyStrOfOptStr a.postcode, state := pyStrOfOptStr a.state,
            state_district := pyStrOfOptStr a.state_district,
            country := pyStrOfOptStr a.country, raw := pyStrOfOptStr a.raw,
            osm_id := oid, osm_type := pyStrOfOptStr a.osm_type }, ?_, rfl, ?_⟩
  · unfold _query_or_add_address _query_address _insert_new_address
    rw [hid, hdry]
    simp [hfind, pyTruthyOptInt]
  · simp [AddressRow.key, dedupKey, hid]

/-- Splitting a dedup-key equality into its components. -/
theorem dedupKey_components (a b : TeslaMateAddress) (oid : Int)
    (hid : a.osm_id = some oid) (h : dedupKey b = dedupKey a) :
    b.osm_id = some oid ∧ pyStrOfOptStr b.osm_type = pyStrOfOptStr a.osm_type := by
  unfold dedupKey at h
  rw [Prod.mk.injEq] at h
  exact ⟨h.1.trans hid, h.2⟩

/-- Once the table holds a row for the dedup key (with a positive id),
resolving any number of addresses with that same key returns that row's id
every time and leaves the database exactly as it is. -/
theorem rocIter_fixed (cfg : FixerConfig) (db₁ : DB) (a : TeslaMateAddress)
    (oid : Int) (r : AddressRow) (hid : a.osm_id = some oid)
    (hfind : db₁.addresses.find?
      (fun rr => rr.osm_id == oid && rr.osm_type == pyStrOfOptStr a.osm_type) = some r)
    (hpos : 0 < r.id) :
    ∀ bs : List TeslaMateAddress, (∀ b ∈ bs, dedupKey b = dedupKey a) →
      rocIter cfg bs db₁ = some (List.replicate bs.length (some r.id), db₁) := by
  intro bs
  induction bs with
  | nil => intro _; rfl
  | cons b rest ih =>
    intro hall
    obtain ⟨hidb, htyb⟩ :=
      dedupKey_components a b oid hid (hall b (List.mem_cons_self b rest))
    have hfindb : db₁.addresses.find?
        (fun rr => rr.osm_id == oid && rr.osm_type == pyStrOfOptStr b.osm_type) = some r := by
      rw [htyb]; exact hfind
    have hstep := roc_found cfg db₁ b oid r hidb hfindb hpos
    have hrest := ih (fun x hx => hall x (List.mem_cons_of_mem b hx))
    simp [rocIter, hstep, hrest, List.replicate_succ]

/-- C1: through `_query_or_add_address`, two resolutions with the same
`(osm_id, osm_type)` dedup key obtain the same address id — the first call
does at most one insert, and once it has run, any number of further same-key
calls return that same id and leave the table exactly as it is (zero further
inserts); two resolutions with distinct dedup keys (both keys fresh) insert
two distinct rows with distinct ids. -/
theorem claim_C1_resolve_or_create
    (cfg : FixerConfig) (db : DB) (a : TeslaMateAddress) (oid : Int)
    (hdry : cfg.dry_run = false) (hwf : db.wf) (hid : a.osm_id = some oid) :
    (∃ id db₁,
      (∃ log, _query_or_add_address cfg db [] a = Step.ok (some id) db₁ log) ∧
      db₁.next_address_id ≤ db.next_address_id + 1 ∧
      ((∀ r ∈ db.addresses, r.key ≠ dedupKey a) →
        db₁.addresses.length = db.addresses.length + 1 ∧
        ∃ r ∈ db₁.addresses, r.id = id ∧ r.key = dedupKey a) ∧
      (∀ bs : List TeslaMateAddress, (∀ b ∈ bs, dedupKey b = dedupKey a) →
        rocIter cfg bs db₁ = some (List.replicate bs.length (some id), db₁))) ∧
    (∀ b oid', b.osm_id = some oid' → dedupKey b ≠ dedupKey a →
      (∀ r ∈ db.addresses, r.key ≠ dedupKey a) →
      (∀ r ∈ db.addresses, r.key ≠ dedupKey b) →
      ∃ id1 db₁ id2 db₂,
        (∃ log, _query_or_add_address cfg db [] a = Step.ok (some id1) db₁ log) ∧
        (∃ log, _query_or_add_address cfg db₁ [] b = Step.ok (some id2) db₂ log) ∧
        id1 ≠ id2 ∧
        db₂.addresses.length = db.addresses.length + 2 ∧
        (∃ r1 ∈ db₂.addresses, r1.id = id1 ∧ r1.key = dedupKey a) ∧
        (∃ r2 ∈ db₂.addresses, r2.id = id2 ∧ r2.key = dedupKey b)) := by
  constructor
  · cases hfind : db.addresses.find?
        (fun rr => rr.osm_id == oid && rr.osm_type == pyStrOfOptStr a.osm_type) with
    | some r =>
      have hrmem := List.mem_of_find?_eq_some hfind
      have hrpos : 0 < r.id := (hwf.2 r hrmem).1
      refine ⟨r.id, db, ⟨_, roc_found cfg db a oid r hid hfind hrpos⟩,
        by omega, ?_, rocIter_fixed cfg db a oid r hid hfind hrpos⟩
      intro habs
      exact absurd ((queryPred_iff a oid hid r).mp
        (List.find?_some (p := fun rr : AddressRow =>
          rr.osm_id == oid && rr.osm_type == pyStrOfOptStr a.osm_type) hfind))
        (habs r hrmem)
    | none =>
      obtain ⟨row, heq, hrowid, hrowkey⟩ := roc_inserted cfg db a oid hdry hid hfind
      have hfind₁ : (db.addresses ++ [row]).find?
          (fun rr => rr.osm_id == oid && rr.osm_type == pyStrOfOptStr a.osm_type) =
            some row := by
        rw [List.find?_append, hfind, Option.none_or]
        exact List.find?_cons_of_pos _ ((queryPred_iff a oid hid row).mpr hrowkey)
      have hpos : 0 < row.id := by rw [hrowid]; exact hwf.1
      refine ⟨row.id, _, ⟨_, by rw [heq, hrowid]⟩, by simp, ?_,
        rocIter_fixed cfg _ a oid row hid hfind₁ hpos⟩
      intro _
      exact ⟨by simp, row, by simp, rfl, hrowkey⟩
  · intro b oid' hidb hkeys habsa habsb
    have hfa := find?_none_of_key_absent db.addresses a oid hid habsa
    obtain ⟨rowA, heqA, hrowAid, hrowAkey⟩ := roc_inserted cfg db a oid hdry hid hfa
    have hfb : (db.addresses ++ [rowA]).find?
        (fun rr => rr.osm_id == oid' && rr.osm_type == pyStrOfOptStr b.osm_type) =
          none := by
      rw [List.find?_append, find?_none_of_key_absent db.addresses b oid' hidb habsb,
        Option.none_or]
      rw [List.find?_cons_of_neg, List.find?_nil]
      rw [queryPred_iff b oid' hidb rowA, hrowAkey]
      exact fun hh => hkeys hh.symm
    obtain ⟨rowB, heqB, hrowBid, hrowBkey⟩ :=
      roc_inserted cfg
        { db with addresses := db.addresses ++ [rowA]
                  next_address_id := db.next_address_id + 1 } b oid' hdry hidb hfb
    refine ⟨db.next_address_id, _, db.next_address_id + 1, _,
      ⟨_, heqA⟩, ⟨_, heqB⟩, by omega, by simp, ?_, ?_⟩
    · exact ⟨rowA, by simp, hrowAid, hrowAkey⟩
    · exact ⟨rowB, by simp, hrowBid, hrowBkey⟩

/-- Witness for C1 on a concrete run: empty table, one address resolved twice
(same key) and one address with a different key. -/
theorem claim_C1_resolve_or_create_witness :
    ({ dry_run := false, verbose := false : FixerConfig }).dry_run = false ∧
    DB.wf {} ∧
    addrNode7.osm_id = some 7 ∧
    ((∃ id db₁,
      (∃ log, _query_or_add_address { dry_run := false, verbose := false } {} [] addrNode7 =
        Step.ok (some id) db₁ log) ∧
      db₁.next_address_id ≤ (DB.next_address_id {}) + 1 ∧
      ((∀ r ∈ DB.addresses {}, r.key ≠ dedupKey addrNode7) →
        db₁.addresses.length = (DB.addresses {}).length + 1 ∧
        ∃ r ∈ db₁.addresses, r.id = id ∧ r.key = dedupKey addrNode7) ∧
      (∀ bs : List TeslaMateAddress, (∀ b ∈ bs, dedupKey b = dedupKey addrNode7) →
        rocIter { dry_run := false, verbose := false } bs db₁ =
          some (List.replicate bs.length (some id), db₁))) ∧
    (∀ b oid', b.osm_id = some oid' → dedupKey b ≠ dedupKey addrNode7 →
      (∀ r ∈ DB.addresses {}, r.key ≠ dedupKey addrNode7) →
      (∀ r ∈ DB.addresses {}, r.key ≠ dedupKey b) →
      ∃ id1 db₁ id2 db₂,
        (∃ log, _query_or_add_address { dry_run := false, verbose := false } {} [] addrNode7 =
          Step.ok (some id1) db₁ log) ∧
        (∃ log, _query_or_add_address { dry_run := false, verbose := false } db₁ [] b =
          Step.ok (some id2) db₂ log) ∧
        id1 ≠ id2 ∧
        db₂.addresses.length = (DB.addresses {}).length + 2 ∧
        (∃ r1 ∈ db₂.addresses, r1.id = id1 ∧ r1.key = dedupKey addrNode7) ∧
        (∃ r2 ∈ db₂.addresses, r2.id = id2 ∧ r2.key = dedupKey b))) :=
  ⟨rfl, by decide, rfl,
   claim_C1_resolve_or_create { dry_run := false, verbose := false } {} addrNode7 7
     rfl (by decide) rfl⟩

/-- The inner iteration of `comparedPairs` over `enumerate(addresses[i+1:])`
rewritten over a plain index range. -/
theorem comparedPairs_inner_eq (l : List TeslaMateAddress) (i : Nat) :
    (l.drop (i+1)).enum.map (fun q => (i, i + 1 + q.1)) =
      (List.range (l.length - (i+1))).map (fun k => (i, i + 1 + k)) := by
  have hcomp : (fun q : Nat × TeslaMateAddress => (i, i + 1 + q.1)) =
      (fun k => (i, i + 1 + k)) ∘ Prod.fst := rfl
  rw [hcomp, ← List.map_map, List.enum_map_fst, List.length_drop]

/-- Membership in `comparedPairs`: exactly the strictly-upper-triangular index
pairs. -/
theorem comparedPairs_mem (l : List TeslaMateAddress) (pr : Nat × Nat) :
    pr ∈ comparedPairs l ↔ pr.1 < pr.2 ∧ pr.2 < l.length := by
  unfold comparedPairs
  rw [List.mem_flatMap]
  constructor
  · rintro ⟨p, hp, hin⟩
    rw [comparedPairs_inner_eq, List.mem_map] at hin
    obtain ⟨k, hk, hpr⟩ := hin
    rw [List.mem_range] at hk
    rw [List.mem_enum_iff_getElem?] at hp
    have hplen : p.1 < l.length := (List.getElem?_eq_some.mp hp).1
    rw [← hpr]
    constructor <;> (simp; omega)
  · rintro ⟨h1, h2⟩
    have hlt : pr.1 < l.length := lt_trans h1 h2
    refine ⟨(pr.1, l.get ⟨pr.1, hlt⟩), ?_, ?_⟩
    · rw [List.mem_enum_iff_getElem?]
      simp [List.getElem?_eq_getElem hlt]
    · rw [comparedPairs_inner_eq, List.mem_map]
      refine ⟨pr.2 - pr.1 - 1, by rw [List.mem_range]; omega, ?_⟩
      have harith : pr.1 + 1 + (pr.2 - pr.1 - 1) = pr.2 := by omega
      rw [harith]

/-- No pair is compared twice: the comparison trace has no duplicates. -/
theorem comparedPairs_nodup (l : List TeslaMateAddress) :
    (comparedPairs l).Nodup := by
  unfold comparedPairs
  rw [List.nodup_flatMap]
  constructor
  · intro p _
    rw [comparedPairs_inner_eq]
    refine (List.nodup_range _).map ?_
    intro k1 k2 hk
    simp only [Prod.mk.injEq] at hk
    omega
  · have hfst : List.Pairwise (fun p q : Nat × TeslaMateAddress => p.1 ≠ q.1) l.enum := by
      have hnd := List.nodup_range l.length
      rw [← List.enum_map_fst l] at hnd
      exact List.pairwise_map.mp hnd
    refine hfst.imp ?_
    intro p q hne x hxp hxq
    dsimp only [] at hxp hxq
    rw [comparedPairs_inner_eq, List.mem_map] at hxp hxq
    obtain ⟨k1, _, hk1⟩ := hxp
    obtain ⟨k2, _, hk2⟩ := hxq
    apply hne
    rw [← hk1] at hk2
    exact (Prod.mk.injEq _ _ _ _ |>.mp hk2).1.symm

/-- Characterisation of one entry of the `nearby_addresses` dict: `(j, d)` is
recorded under `i` exactly when `j` is a later index and the distance `d`
between the two addresses is within the radius. -/
theorem nearby_addresses_entry (l : List TeslaMateAddress) (radius : Int)
    (i : Nat) (ns : List (Nat × ℝ))
    (h : (i, ns) ∈ nearby_addresses l radius) :
    ∀ j d, ((j, d) ∈ ns ↔ i < j ∧ ∃ a b, l[i]? = some a ∧ l[j]? = some b ∧
      d = _calculate_distance a b ∧ d ≤ (radius : ℝ)) := by
  intro j d
  unfold nearby_addresses at h
  rw [List.mem_map] at h
  obtain ⟨⟨pi, pa⟩, hp, heq⟩ := h
  rw [Prod.mk.injEq] at heq
  obtain ⟨h1, h2⟩ := heq
  subst h1
  subst h2
  rw [List.mem_enum_iff_getElem?] at hp
  rw [List.mem_filterMap]
  constructor
  · rintro ⟨q, hq, hfq⟩
    rw [List.mem_enum_iff_getElem?, List.getElem?_drop] at hq
    dsimp only [] at hfq
    by_cases hd : _calculate_distance pa q.2 ≤ (radius : ℝ)
    · rw [if_pos hd, Option.some.injEq, Prod.mk.injEq] at hfq
      obtain ⟨hj, hd2⟩ := hfq
      refine ⟨by omega, pa, q.2, hp, ?_, hd2.symm, by rw [← hd2]; exact hd⟩
      rw [← hj]
      exact hq
    · rw [if_neg hd] at hfq
      exact absurd hfq (Option.noConfusion)
  · rintro ⟨hij, a, b, ha, hb, hd, hdr⟩
    have ha2 : a = pa := by
      rw [hp] at ha
      exact (Option.some.injEq _ _ |>.mp ha).symm
    subst ha2
    refine ⟨(j - (pi + 1), b), ?_, ?_⟩
    · rw [List.mem_enum_iff_getElem?, List.getElem?_drop]
      have harith : pi + 1 + (j - (pi + 1)) = j := by omega
      rw [harith]
      exact hb
    · dsimp only []
      rw [← hd]
      rw [if_pos hdr]
      have harith : pi + 1 + (j - (pi + 1)) = j := by omega
      rw [harith]

/-- C6: the finder performs a strict upper-triangular scan — every unordered
pair of loaded addresses is compared exactly once, as the ordered pair
`(i, j)` with `i < j` — records `j` with its distance as a neighbor of `i`
exactly when the haversine distance is within the radius, and its report
consists of exactly the entries with at least one neighbor. -/
theorem claim_C6_nearby_finder (addresses : List TeslaMateAddress) (radius : Int) :
    ((comparedPairs addresses).Nodup ∧
      (∀ pr : Nat × Nat, pr ∈ comparedPairs addresses ↔
        pr.1 < pr.2 ∧ pr.2 < addresses.length)) ∧
    ((nearby_addresses addresses radius).map Prod.fst =
      List.range addresses.length) ∧
    (∀ i ns, (i, ns) ∈ nearby_addresses addresses radius →
      ∀ j d, ((j, d) ∈ ns ↔ i < j ∧
        ∃ a b, addresses[i]? = some a ∧ addresses[j]? = some b ∧
          d = _calculate_distance a b ∧ d ≤ (radius : ℝ))) ∧
    (∀ pr : Nat × List (Nat × ℝ), pr ∈ nearbyReport addresses radius ↔
      pr ∈ nearby_addresses addresses radius ∧ pr.2 ≠ []) := by
  refine ⟨⟨comparedPairs_nodup addresses, comparedPairs_mem addresses⟩, ?_, ?_, ?_⟩
  · unfold nearby_addresses
    rw [List.map_map]
    have hcomp : (Prod.fst ∘ fun p : Nat × TeslaMateAddress =>
        (p.1, (addresses.drop (p.1 + 1)).enum.filterMap (fun q =>
          let distance_m := _calculate_distance p.2 q.2
          if distance_m ≤ (radius : ℝ) then some (p.1 + 1 + q.1, distance_m)
          else none))) = Prod.fst := rfl
    rw [hcomp, List.enum_map_fst]
  · exact fun i ns h => nearby_addresses_entry addresses radius i ns h
  · intro pr
    unfold nearbyReport
    rw [List.mem_filter]
    simp [List.isEmpty_iff]

/-- Witness for C6: the neighbor-characterisation clause applied to the
(empty) entry of a one-element address list. -/
theorem claim_C6_nearby_finder_witness :
    ((0, ([] : List (Nat × ℝ))) ∈ nearby_addresses [addrNode7] 50) ∧
    (∀ j d, ((j, d) ∈ ([] : List (Nat × ℝ)) ↔ 0 < j ∧
      ∃ a b, [addrNode7][0]? = some a ∧ [addrNode7][j]? = some b ∧
        d = _calculate_distance a b ∧ d ≤ ((50 : Int) : ℝ))) :=
  ⟨List.mem_singleton.mpr rfl,
   (claim_C6_nearby_finder [addrNode7] 50).2.2.1 0 []
     (List.mem_singleton.mpr rfl)⟩

/-- Evaluating one `fix` run on `dbGeoFailDemo` with a failing geocoder:
the failure is logged, then the unguarded `logger.info` dereferences the
`None` result (`AttributeError`), the catch-all handler logs and its broken
rollback line re-raises `AttributeError` out of `execute`.  (Shared by the C2
and C9 theorems.) -/
theorem execute_geoFailDemo :
    TeslaMateAddressFixer.execute {} geoFail dbGeoFailDemo =
      Step.raise PyError.attributeError
        [LogEntry.errorQueryOSM, LogEntry.errorUpdatingAddress] := rfl

/-- C2 (code evaluated at the failing input): with one drive candidate whose
geocoding call fails, the run logs the geocoding failure but then ABORTS with
`AttributeError` — the record's address id stays null only because nothing is
committed, and the remainder of the run is never processed; in single-shot
mode the process crashes.  This contradicts the claim that the failure is
handled at the point of occurrence and the run continues. -/
theorem claim_C2_geocode_failure_aborts_run :
    TeslaMateAddressFixer.execute {} geoFail dbGeoFailDemo =
      Step.raise PyError.attributeError
        [LogEntry.errorQueryOSM, LogEntry.errorUpdatingAddress] ∧
    mainFixOnce {} geoFail dbGeoFailDemo =
      ProcOutcome.crashed PyError.attributeError
        [LogEntry.errorQueryOSM, LogEntry.errorUpdatingAddress] :=
  ⟨execute_geoFailDemo, by unfold mainFixOnce; rw [execute_geoFailDemo]⟩

/-- C9 (code evaluated at the failing input): in daemon mode, the first run
that fails does not lead to a sleep-and-retry — the `AttributeError` escaping
`execute` kills the `while True:` loop, for every remaining iteration budget.
This contradicts the claim that the daemon loop re-attempts after a failed
run. -/
theorem claim_C9_daemon_loop_dies :
    ∀ n : Nat, daemonIter {} geoFail (n + 1) dbGeoFailDemo =
      DaemonOutcome.crashed PyError.attributeError := by
  intro n
  unfold daemonIter
  rw [execute_geoFailDemo]

/-- C5: a drive candidate whose missing start (or end) address comes with a
null corresponding position id, and a charge candidate with a null position
id, hit the data-integrity `assert` before any resolution of that record; the
`AssertionError` aborts the run (surfacing as the handler's `AttributeError`)
and the single-shot process terminates with a non-zero status. -/
theorem claim_C5_missing_position_fatal (cfg : FixerConfig) (geo : Geo) (db : DB) :
    (∀ d rest, db.drives = d :: rest →
      d.start_address_id = none → d.start_position_id = none →
      executeBody cfg geo db = Step.raise PyError.assertionError [] ∧
      TeslaMateAddressFixer.execute cfg geo db =
        Step.raise PyError.attributeError [LogEntry.errorUpdatingAddress] ∧
      mainFixOnce cfg geo db =
        ProcOutcome.crashed PyError.attributeError [LogEntry.errorUpdatingAddress]) ∧
    (∀ d rest k, db.drives = d :: rest →
      d.start_address_id = some k → d.end_address_id = none →
      d.end_position_id = none →
      executeBody cfg geo db = Step.raise PyError.assertionError [] ∧
      TeslaMateAddressFixer.execute cfg geo db =
        Step.raise PyError.attributeError [LogEntry.errorUpdatingAddress] ∧
      mainFixOnce cfg geo db =
        ProcOutcome.crashed PyError.attributeError [LogEntry.errorUpdatingAddress]) ∧
    (∀ c rest, db.drives = [] → db.charges = c :: rest →
      c.address_id = none → c.position_id = none →
      executeBody cfg geo db = Step.raise PyError.assertionError [] ∧
      TeslaMateAddressFixer.execute cfg geo db =
        Step.raise PyError.attributeError [LogEntry.errorUpdatingAddress] ∧
      mainFixOnce cfg geo db =
        ProcOutcome.crashed PyError.attributeError [LogEntry.errorUpdatingAddress]) := by
  have hrest : ∀ hbody : executeBody cfg geo db = Step.raise PyError.assertionError [],
      TeslaMateAddressFixer.execute cfg geo db =
        Step.raise PyError.attributeError [LogEntry.errorUpdatingAddress] ∧
      mainFixOnce cfg geo db =
        ProcOutcome.crashed PyError.attributeError [LogEntry.errorUpdatingAddress] := by
    intro hbody
    have hex : TeslaMateAddressFixer.execute cfg geo db =
        Step.raise PyError.attributeError [LogEntry.errorUpdatingAddress] := by
      unfold TeslaMateAddressFixer.execute
      rw [hbody]
      simp
    exact ⟨hex, by unfold mainFixOnce; rw [hex]⟩
  refine ⟨?_, ?_, ?_⟩
  · intro d rest hdr h1 h2
    have hbody : executeBody cfg geo db = Step.raise PyError.assertionError [] := by
      simp [executeBody, hdr, List.filter_cons, fixDrives, fixDriveStart, h1, h2]
    exact ⟨hbody, hrest hbody⟩
  · intro d rest k hdr h1 h2 h3
    have hbody : executeBody cfg geo db = Step.raise PyError.assertionError [] := by
      simp [executeBody, hdr, List.filter_cons, fixDrives, fixDriveStart, fixDriveEnd,
        h1, h2, h3]
    exact ⟨hbody, hrest hbody⟩
  · intro c rest hdr hch h1 h2
    have hbody : executeBody cfg geo db = Step.raise PyError.assertionError [] := by
      simp [executeBody, hdr, hch, List.filter_cons, fixDrives, fixCharges, h1, h2]
    exact ⟨hbody, hrest hbody⟩

/-- Witness for C5: the start-endpoint clause on the concrete corrupt drive. -/
theorem claim_C5_missing_position_fatal_witness :
    (dbBadDrive.drives =
      { id := 3, start_address_id := none, start_position_id := none,
        end_address_id := some 5, end_position_id := some 11 } :: []) ∧
    ({ id := 3, start_address_id := none, start_position_id := none,
       end_address_id := some 5, end_position_id := some 11 : DriveRow }.start_address_id
      = none) ∧
    ({ id := 3, start_address_id := none, start_position_id := none,
       end_address_id := some 5, end_position_id := some 11 : DriveRow }.start_position_id
      = none) ∧
    (executeBody {} geoEmptyOk dbBadDrive = Step.raise PyError.assertionError [] ∧
      TeslaMateAddressFixer.execute {} geoEmptyOk dbBadDrive =
        Step.raise PyError.attributeError [LogEntry.errorUpdatingAddress] ∧
      mainFixOnce {} geoEmptyOk dbBadDrive =
        ProcOutcome.crashed PyError.attributeError [LogEntry.errorUpdatingAddress]) :=
  ⟨rfl, rfl, rfl,
   (claim_C5_missing_position_fatal {} geoEmptyOk dbBadDrive).1
     { id := 3, start_address_id := none, start_position_id := none,
       end_address_id := some 5, end_position_id := some 11 } [] rfl rfl rfl⟩

/-- In dry-run mode `_query_or_add_address` never writes: whatever the lookup
yields, the database comes back unchanged and the log is only appended to. -/
theorem roc_dry (cfg : FixerConfig) (db : DB) (log : Log) (a : TeslaMateAddress)
    (oid : Int) (hdry : cfg.dry_run = true) (ha : a.osm_id = some oid) :
    ∃ res logv, _query_or_add_address cfg db log a = Step.ok res db (log ++ logv) := by
  unfold _query_or_add_address _query_address _insert_new_address
  rw [ha, hdry]
  by_cases ht : pyTruthyOptInt ((db.addresses.find? (fun rr =>
      rr.osm_id == oid && rr.osm_type == pyStrOfOptStr a.osm_type)).map (·.id)) = true
  · refine ⟨(db.addresses.find? (fun rr =>
        rr.osm_id == oid && rr.osm_type == pyStrOfOptStr a.osm_type)).map (·.id),
      if cfg.verbose then
        [LogEntry.infoUseExistingAddress
          (((db.addresses.find? (fun rr =>
            rr.osm_id == oid && rr.osm_type == pyStrOfOptStr a.osm_type)).map (·.id)).getD 0)]
      else [], ?_⟩
    simp [ht]
  · exact ⟨none, if cfg.verbose then [LogEntry.infoInsertNewAddress] else [],
      by simp [ht]⟩

/-- In dry-run mode `_fix_drive_address` performs neither the UPDATE nor the
broken commit: it returns normally with the database unchanged. -/
theorem fix_drive_dry (cfg : FixerConfig) (db : DB) (log : Log) (drive_id : Int)
    (endpoint : String) (a : TeslaMateAddress) (oid : Int)
    (hdry : cfg.dry_run = true) (ha : a.osm_id = some oid) :
    ∃ logv, _fix_drive_address cfg db log drive_id endpoint a =
      Step.ok () db (log ++ logv) := by
  obtain ⟨res, logv, hroc⟩ := roc_dry cfg db log a oid hdry ha
  refine ⟨logv ++ (if cfg.verbose then [LogEntry.infoUpdateDriveAddress drive_id endpoint]
    else []), ?_⟩
  unfold _fix_drive_address
  rw [hroc, hdry]
  simp

/-- In dry-run mode `_fix_charge_address` performs neither the UPDATE nor the
broken commit: it returns normally with the database unchanged. -/
theorem fix_charge_dry (cfg : FixerConfig) (db : DB) (log : Log) (charge_id : Int)
    (a : TeslaMateAddress) (oid : Int)
    (hdry : cfg.dry_run = true) (ha : a.osm_id = some oid) :
    ∃ logv, _fix_charge_address cfg db log charge_id a =
      Step.ok () db (log ++ logv) := by
  obtain ⟨res, logv, hroc⟩ := roc_dry cfg db log a oid hdry ha
  refine ⟨logv ++ (if cfg.verbose then [LogEntry.infoUpdateChargeAddress charge_id]
    else []), ?_⟩
  unfold _fix_charge_address
  rw [hroc, hdry]
  simp

/-- Resolving a present position against a successful geocoder yields the
normalized address (and no log output). -/
theorem resolve_position_success (geo : Geo) (db : DB) (pid : Int)
    (pos : PositionRow) (data : OsmResponseJson)
    (hfind : db.positions.find? (fun pp => pp.id == pid) = some pos)
    (hgeo : geo pos.latitude pos.longitude = HttpResult.success data) :
    _resolve_position_id geo db pid =
      (some (TeslaMateAddress.from_coord_success pos.latitude pos.longitude data), []) := by
  unfold _resolve_position_id TeslaMateAddress.from_coord
  simp [hfind, hgeo]

/-- In dry-run mode, with a successful geocoder and the needed position row
present, the start block of the drive loop completes normally with the
database unchanged, logging the intended fix when the start address was
missing. -/
theorem fixDriveStart_dry (cfg : FixerConfig) (geo : Geo) (db : DB) (log : Log)
    (d : DriveRow) (hdry : cfg.dry_run = true)
    (hgeo : ∀ la lo, ∃ data, geo la lo = HttpResult.success data)
    (hpos : d.start_address_id = none → ∃ p pos, d.start_position_id = some p ∧
      db.positions.find? (fun pp => pp.id == p) = some pos) :
    ∃ logv, fixDriveStart cfg geo db log d = Step.ok () db (log ++ logv) ∧
      (d.start_address_id = none →
        ∃ la lo disp, LogEntry.infoFixStart d.id la lo disp ∈ logv) := by
  cases hsa : d.start_address_id with
  | some k =>
    refine ⟨[], ?_, by simp [hsa]⟩
    unfold fixDriveStart
    rw [hsa]
    simp
  | none =>
    obtain ⟨p, pos, hp, hfind⟩ := hpos hsa
    obtain ⟨data, hdata⟩ := hgeo pos.latitude pos.longitude
    have hres := resolve_position_success geo db p pos data hfind hdata
    obtain ⟨logv1, hfix⟩ := fix_drive_dry cfg db log d.id "start"
      (TeslaMateAddress.from_coord_success pos.latitude pos.longitude data)
      (data.osm_id.getD 0) hdry rfl
    refine ⟨logv1 ++ [LogEntry.infoFixStart d.id
        (TeslaMateAddress.from_coord_success pos.latitude pos.longitude data).latitude
        (TeslaMateAddress.from_coord_success pos.latitude pos.longitude data).longitude
        (TeslaMateAddress.from_coord_success pos.latitude pos.longitude data).display_name],
      ?_, ?_⟩
    · simp [fixDriveStart, hsa, hp, hres, hfix]
    · intro _
      exact ⟨(TeslaMateAddress.from_coord_success pos.latitude pos.longitude data).latitude,
        (TeslaMateAddress.from_coord_success pos.latitude pos.longitude data).longitude,
        (TeslaMateAddress.from_coord_success pos.latitude pos.longitude data).display_name,
        by simp⟩

/-- Symmetric dry-run lemma for the end block of the drive loop. -/
theorem fixDriveEnd_dry (cfg : FixerConfig) (geo : Geo) (db : DB) (log : Log)
    (d : DriveRow) (hdry : cfg.dry_run = true)
    (hgeo : ∀ la lo, ∃ data, geo la lo = HttpResult.success data)
    (hpos : d.end_address_id = none → ∃ p pos, d.end_position_id = some p ∧
      db.positions.find? (fun pp => pp.id == p) = some pos) :
    ∃ logv, fixDriveEnd cfg geo db log d = Step.ok () db (log ++ logv) ∧
      (d.end_address_id = none →
        ∃ la lo disp, LogEntry.infoFixEnd d.id la lo disp ∈ logv) := by
  cases hsa : d.end_address_id with
  | some k =>
    refine ⟨[], ?_, by simp [hsa]⟩
    unfold fixDriveEnd
    rw [hsa]
    simp
  | none =>
    obtain ⟨p, pos, hp, hfind⟩ := hpos hsa
    obtain ⟨data, hdata⟩ := hgeo pos.latitude pos.longitude
    have hres := resolve_position_success geo db p pos data hfind hdata
    obtain ⟨logv1, hfix⟩ := fix_drive_dry cfg db log d.id "end"
      (TeslaMateAddress.from_coord_success pos.latitude pos.longitude data)
      (data.osm_id.getD 0) hdry rfl
    refine ⟨logv1 ++ [LogEntry.infoFixEnd d.id
        (TeslaMateAddress.from_coord_success pos.latitude pos.longitude data).latitude
        (TeslaMateAddress.from_coord_success pos.latitude pos.longitude data).longitude
        (TeslaMateAddress.from_coord_success pos.latitude pos.longitude data).display_name],
      ?_, ?_⟩
    · simp [fixDriveEnd, hsa, hp, hres, hfix]
    · intro _
      exact ⟨(TeslaMateAddress.from_coord_success pos.latitude pos.longitude data).latitude,
        (TeslaMateAddress.from_coord_success pos.latitude pos.longitude data).longitude,
        (TeslaMateAddress.from_coord_success pos.latitude pos.longitude data).display_name,
        by simp⟩

/-- In dry-run mode the whole drive loop completes normally with the database
unchanged, and logs the intended fix for every missing endpoint address. -/
theorem fixDrives_dry (cfg : FixerConfig) (geo : Geo) (db : DB)
    (hdry : cfg.dry_run = true)
    (hgeo : ∀ la lo, ∃ data, geo la lo = HttpResult.success data) :
    ∀ (ds : List DriveRow) (log : Log),
      (∀ d ∈ ds,
        (d.start_address_id = none → ∃ p pos, d.start_position_id = some p ∧
          db.positions.find? (fun pp => pp.id == p) = some pos) ∧
        (d.end_address_id = none → ∃ p pos, d.end_position_id = some p ∧
          db.positions.find? (fun pp => pp.id == p) = some pos)) →
      ∃ logv, fixDrives cfg geo ds db log = Step.ok () db (log ++ logv) ∧
        ∀ d ∈ ds,
          (d.start_address_id = none →
            ∃ la lo disp, LogEntry.infoFixStart d.id la lo disp ∈ logv) ∧
          (d.end_address_id = none →
            ∃ la lo disp, LogEntry.infoFixEnd d.id la lo disp ∈ logv) := by
  intro ds
  induction ds with
  | nil =>
    intro log _
    exact ⟨[], by simp [fixDrives], by simp⟩
  | cons d rest ih =>
    intro log hall
    obtain ⟨logvS, hS, hSmem⟩ :=
      fixDriveStart_dry cfg geo db log d hdry hgeo
        (hall d (List.mem_cons_self d rest)).1
    obtain ⟨logvE, hE, hEmem⟩ :=
      fixDriveEnd_dry cfg geo db (log ++ logvS) d hdry hgeo
        (hall d (List.mem_cons_self d rest)).2
    obtain ⟨logvR, hR, hRmem⟩ :=
      ih (log ++ logvS ++ logvE) (fun x hx => hall x (List.mem_cons_of_mem d hx))
    refine ⟨logvS ++ logvE ++ logvR, ?_, ?_⟩
    · simp only [fixDrives, hS, hE]
      rw [show log ++ logvS ++ logvE = log ++ (logvS ++ logvE) from by
        simp [List.append_assoc]] at hR
      simp [hR, List.append_assoc]
    · intro x hx
      rcases List.mem_cons.mp hx with hx | hx
      · subst hx
        refine ⟨?_, ?_⟩
        · intro h
          obtain ⟨la, lo, disp, hm⟩ := hSmem h
          exact ⟨la, lo, disp, by simp [hm]⟩
        · intro h
          obtain ⟨la, lo, disp, hm⟩ := hEmem h
          exact ⟨la, lo, disp, by simp [hm]⟩
      · refine ⟨?_, ?_⟩
        · intro h
          obtain ⟨la, lo, disp, hm⟩ := (hRmem x hx).1 h
          exact ⟨la, lo, disp, by simp [hm]⟩
        · intro h
          obtain ⟨la, lo, disp, hm⟩ := (hRmem x hx).2 h
          exact ⟨la, lo, disp, by simp [hm]⟩

/-- In dry-run mode the whole charge loop completes normally with the database
unchanged, and logs the intended fix for every processed charge. -/
theorem fixCharges_dry (cfg : FixerConfig) (geo : Geo) (db : DB)
    (hdry : cfg.dry_run = true)
    (hgeo : ∀ la lo, ∃ data, geo la lo = HttpResult.success data) :
    ∀ (cs : List ChargeRow) (log : Log),
      (∀ c ∈ cs, ∃ p pos, c.position_id = some p ∧
        db.positions.find? (fun pp => pp.id == p) = some pos) →
      ∃ logv, fixCharges cfg geo cs db log = Step.ok () db (log ++ logv) ∧
        ∀ c ∈ cs, ∃ la lo disp, LogEntry.infoFixCharge c.id la lo disp ∈ logv := by
  intro cs
  induction cs with
  | nil =>
    intro log _
    exact ⟨[], by simp [fixCharges], by simp⟩
  | cons c rest ih =>
    intro log hall
    obtain ⟨p, pos, hp, hfind⟩ := hall c (List.mem_cons_self c rest)
    obtain ⟨data, hdata⟩ := hgeo pos.latitude pos.longitude
    have hres := resolve_position_success geo db p pos data hfind hdata
    obtain ⟨logv1, hfix⟩ := fix_charge_dry cfg db log c.id
      (TeslaMateAddress.from_coord_success pos.latitude pos.longitude data)
      (data.osm_id.getD 0) hdry rfl
    obtain ⟨logvR, hR, hRmem⟩ :=
      ih ((log ++ logv1) ++
          [LogEntry.infoFixCharge c.id
            (TeslaMateAddress.from_coord_success pos.latitude pos.longitude data).latitude
            (TeslaMateAddress.from_coord_success pos.latitude pos.longitude data).longitude
            (TeslaMateAddress.from_coord_success pos.latitude pos.longitude data).display_name])
        (fun x hx => hall x (List.mem_cons_of_mem c hx))
    refine ⟨logv1 ++
        [LogEntry.infoFixCharge c.id
          (TeslaMateAddress.from_coord_success pos.latitude pos.longitude data).latitude
          (TeslaMateAddress.from_coord_success pos.latitude pos.longitude data).longitude
          (TeslaMateAddress.from_coord_success pos.latitude pos.longitude data).display_name] ++
        logvR, ?_, ?_⟩
    · simp only [fixCharges, hp, hres, List.append_nil]
      rw [hfix]
      simp [List.append_assoc] at hR
      simp [hR, List.append_assoc]
    · intro x hx
      rcases List.mem_cons.mp hx with hx | hx
      · subst hx
        exact ⟨(TeslaMateAddress.from_coord_success pos.latitude pos.longitude data).latitude,
          (TeslaMateAddress.from_coord_success pos.latitude pos.longitude data).longitude,
          (TeslaMateAddress.from_coord_success pos.latitude pos.longitude data).display_name,
          by simp⟩
      · obtain ⟨la, lo, disp, hm⟩ := hRmem x hx
        exact ⟨la, lo, disp, by simp [hm]⟩

/-- C4: with dry-run active (and a well-formed candidate set resolved by a
successful geocoder), a full resolver run completes normally and leaves the
whole database — `addresses`, `drives` and `charging_processes` — exactly
unchanged (no insert, no linking update), while the log still describes every
intended update (one `Fix ...` line per missing endpoint address and per
charge candidate). -/
theorem claim_C4_dry_run (cfg : FixerConfig) (geo : Geo) (db : DB)
    (hdry : cfg.dry_run = true)
    (hgeo : ∀ la lo, ∃ data, geo la lo = HttpResult.success data)
    (hdrives : ∀ d ∈ db.drives,
      (d.start_address_id = none → ∃ p pos, d.start_position_id = some p ∧
        db.positions.find? (fun pp => pp.id == p) = some pos) ∧
      (d.end_address_id = none → ∃ p pos, d.end_position_id = some p ∧
        db.positions.find? (fun pp => pp.id == p) = some pos))
    (hcharges : ∀ c ∈ db.charges, c.address_id = none →
      ∃ p pos, c.position_id = some p ∧
        db.positions.find? (fun pp => pp.id == p) = some pos) :
    ∃ log, TeslaMateAddressFixer.execute cfg geo db = Step.ok () db log ∧
      (∀ d ∈ db.drives,
        (d.start_address_id = none →
          ∃ la lo disp, LogEntry.infoFixStart d.id la lo disp ∈ log) ∧
        (d.end_address_id = none →
          ∃ la lo disp, LogEntry.infoFixEnd d.id la lo disp ∈ log)) ∧
      (∀ c ∈ db.charges, c.address_id = none →
        ∃ la lo disp, LogEntry.infoFixCharge c.id la lo disp ∈ log) := by
  obtain ⟨logvD, hD, hDmem⟩ := fixDrives_dry cfg geo db hdry hgeo
    (db.drives.filter (fun d => d.start_address_id.isNone || d.end_address_id.isNone)) []
    (fun d hd => hdrives d (List.mem_filter.mp hd).1)
  obtain ⟨logvC, hC, hCmem⟩ := fixCharges_dry cfg geo db hdry hgeo
    (db.charges.filter (fun c => c.address_id.isNone)) ([] ++ logvD)
    (fun c hc => hcharges c (List.mem_filter.mp hc).1
      (by simpa using (List.mem_filter.mp hc).2))
  have hbody : executeBody cfg geo db = Step.ok () db (([] ++ logvD) ++ logvC) := by
    simp only [executeBody, hD]
    exact hC
  have hexec : TeslaMateAddressFixer.execute cfg geo db =
      Step.ok () db (([] ++ logvD) ++ logvC) := by
    simp only [TeslaMateAddressFixer.execute, hbody]
  refine ⟨([] ++ logvD) ++ logvC, hexec, ?_, ?_⟩
  · intro d hd
    refine ⟨?_, ?_⟩
    · intro h
      have hdf : d ∈ db.drives.filter
          (fun d => d.start_address_id.isNone || d.end_address_id.isNone) :=
        List.mem_filter.mpr ⟨hd, by simp [h]⟩
      obtain ⟨la, lo, disp, hm⟩ := (hDmem d hdf).1 h
      exact ⟨la, lo, disp, by simp [hm]⟩
    · intro h
      have hdf : d ∈ db.drives.filter
          (fun d => d.start_address_id.isNone || d.end_address_id.isNone) :=
        List.mem_filter.mpr ⟨hd, by simp [h]⟩
      obtain ⟨la, lo, disp, hm⟩ := (hDmem d hdf).2 h
      exact ⟨la, lo, disp, by simp [hm]⟩
  · intro c hc h
    have hcf : c ∈ db.charges.filter (fun c => c.address_id.isNone) :=
      List.mem_filter.mpr ⟨hc, by simp [h]⟩
    obtain ⟨la, lo, disp, hm⟩ := hCmem c hcf
    exact ⟨la, lo, disp, by simp [hm]⟩

/-- Witness for C4 on a concrete dry run: one candidate drive with a missing
start address, its position present, a geocoder that always succeeds. -/
theorem claim_C4_dry_run_witness :
    ({ dry_run := true, verbose := false : FixerConfig }).dry_run = true ∧
    (∀ la lo, ∃ data, geoEmptyOk la lo = HttpResult.success data) ∧
    (∀ d ∈ dbGeoFailDemo.drives,
      (d.start_address_id = none → ∃ p pos, d.start_position_id = some p ∧
        dbGeoFailDemo.positions.find? (fun pp => pp.id == p) = some pos) ∧
      (d.end_address_id = none → ∃ p pos, d.end_position_id = some p ∧
        dbGeoFailDemo.positions.find? (fun pp => pp.id == p) = some pos)) ∧
    (∀ c ∈ dbGeoFailDemo.charges, c.address_id = none →
      ∃ p pos, c.position_id = some p ∧
        dbGeoFailDemo.positions.find? (fun pp => pp.id == p) = some pos) ∧
    (∃ log, TeslaMateAddressFixer.execute { dry_run := true, verbose := false }
        geoEmptyOk dbGeoFailDemo = Step.ok () dbGeoFailDemo log ∧
      (∀ d ∈ dbGeoFailDemo.drives,
        (d.start_address_id = none →
          ∃ la lo disp, LogEntry.infoFixStart d.id la lo disp ∈ log) ∧
        (d.end_address_id = none →
          ∃ la lo disp, LogEntry.infoFixEnd d.id la lo disp ∈ log)) ∧
      (∀ c ∈ dbGeoFailDemo.charges, c.address_id = none →
        ∃ la lo disp, LogEntry.infoFixCharge c.id la lo disp ∈ log)) := by
  have hgeo : ∀ la lo : ℚ, ∃ data, geoEmptyOk la lo = HttpResult.success data :=
    fun _ _ => ⟨{}, rfl⟩
  have hdrv : ∀ d ∈ dbGeoFailDemo.drives,
      (d.start_address_id = none → ∃ p pos, d.start_position_id = some p ∧
        dbGeoFailDemo.positions.find? (fun pp => pp.id == p) = some pos) ∧
      (d.end_address_id = none → ∃ p pos, d.end_position_id = some p ∧
        dbGeoFailDemo.positions.find? (fun pp => pp.id == p) = some pos) := by
    intro d hd
    rw [show dbGeoFailDemo.drives =
        [{ id := 1, start_address_id := none, start_position_id := some 10,
           end_address_id := some 5, end_position_id := some 11 }] from rfl,
      List.mem_singleton] at hd
    subst hd
    exact ⟨fun _ => ⟨10, { id := 10, latitude := 1, longitude := 2 }, rfl, rfl⟩,
      fun h => nomatch h⟩
  have hchg : ∀ c ∈ dbGeoFailDemo.charges, c.address_id = none →
      ∃ p pos, c.position_id = some p ∧
        dbGeoFailDemo.positions.find? (fun pp => pp.id == p) = some pos := by
    intro c hc
    exact absurd hc (by simp [dbGeoFailDemo])
  exact ⟨rfl, hgeo, hdrv, hchg,
    claim_C4_dry_run { dry_run := true, verbose := false } geoEmptyOk dbGeoFailDemo
      rfl hgeo hdrv hchg⟩
